/-
Verification of the gorcb reinforced-concrete beam engine.

Shallow embedding of the Go sources over exact rational arithmetic (`ℚ`):
every float64 expression of the source is translated to the corresponding
exact rational expression (decimal literals are written as explicit
fractions, e.g. `0.85` as `85/100`), and every fallible Go call
`(result, error)` is translated to an `Option` value (`none` = the error
path).  Strings produced through `fmt.Sprintf` are embedded as their
constant skeleton (numeric interpolations elided).

`math.Sqrt` is embedded as `sqrtQ`, which agrees with the real square root
whenever numerator and denominator of the (normalised) argument are perfect
squares; every concrete input appearing in a witness or counterexample below
is chosen so that each `sqrtQ` call it reaches either sits at such a point or
only feeds a comparison whose outcome agrees with the real square root.
`math.Min` / `math.Max` / `math.Abs` are embedded as `minQ` / `maxQ` / `absQ`.
-/
import Mathlib

set_option maxHeartbeats 1000000
set_option maxRecDepth 4000

/-- Embedding of Go `math.Sqrt` on exact rationals: exact on arguments whose
normalised numerator and denominator are perfect squares. -/
def sqrtQ (q : ℚ) : ℚ := mkRat (Int.sqrt q.num) (Nat.sqrt q.den)

/-- Embedding of Go `math.Min` (computable conditional form). -/
def minQ (a b : ℚ) : ℚ := if a ≤ b then a else b

/-- Embedding of Go `math.Max` (computable conditional form). -/
def maxQ (a b : ℚ) : ℚ := if a ≤ b then b else a

/-- Embedding of Go `math.Abs` (computable conditional form). -/
def absQ (a : ℚ) : ℚ := if a < 0 then -a else a

theorem minQ_eq_min (a b : ℚ) : minQ a b = min a b := (min_def a b).symm

theorem maxQ_eq_max (a b : ℚ) : maxQ a b = max a b := (max_def a b).symm

theorem absQ_eq_abs (a : ℚ) : absQ a = |a| := by
  rw [absQ, abs_eq_max_neg, max_def]
  split <;> split <;> first | rfl | linarith

theorem le_maxQ_right (a b : ℚ) : b ≤ maxQ a b := by
  rw [maxQ_eq_max]; exact le_max_right a b

namespace nscp

/-- `Beta1Max = 0.85` (source: internal/nscp constants). -/
def Beta1Max : ℚ := 85/100

/-- `Beta1Min = 0.65`. -/
def Beta1Min : ℚ := 65/100

/-- Ultimate concrete strain `EpsilonCU = 0.003`. -/
def EpsilonCU : ℚ := 3/1000

/-- Strength reduction factor for flexure, `PhiFlexure = 0.90`. -/
def PhiFlexure : ℚ := 90/100

/-- Strength reduction factor for tied compression, `PhiCompression = 0.65`. -/
def PhiCompression : ℚ := 65/100

/-- Steel modulus of elasticity `Es = 200000` MPa. -/
def Es : ℚ := 200000

/-- `Beta1` from internal/nscp: stress-block factor. -/
def Beta1 (fc : ℚ) : ℚ :=
  if fc ≤ 28 then Beta1Max
  else maxQ (Beta1Max - 5/100 * (fc - 28) / 7) Beta1Min

/-- `Phi` from internal/nscp: strength-reduction factor from tensile strain. -/
def Phi (epsilonT fy : ℚ) : ℚ :=
  if epsilonT ≥ fy / Es + 3/1000 then PhiFlexure
  else if epsilonT ≤ fy / Es then PhiCompression
  else PhiCompression + (PhiFlexure - PhiCompression) * (epsilonT - fy / Es) / (3/1000)

/-- `RhoMin` from internal/nscp: minimum reinforcement ratio. -/
def RhoMin (fc fy : ℚ) : ℚ :=
  maxQ (sqrtQ fc / (4 * fy)) (14/10 / fy)

/-- `RhoMax` from internal/nscp: maximum (tension-controlled) reinforcement ratio. -/
def RhoMax (fc fy : ℚ) : ℚ :=
  85/100 * Beta1 fc * (fc / fy) * (EpsilonCU / (EpsilonCU + 5/1000))

/-- `RhoBalanced` from internal/nscp: balanced reinforcement ratio. -/
def RhoBalanced (fc fy : ℚ) : ℚ :=
  85/100 * Beta1 fc * (fc / fy) * (EpsilonCU / (EpsilonCU + fy / Es))

/-- `Phi` always lies between 0.65 and 0.90. -/
theorem Phi_bounds (e fy : ℚ) : 65/100 ≤ Phi e fy ∧ Phi e fy ≤ 90/100 := by
  unfold Phi PhiFlexure PhiCompression Es
  split_ifs with h1 h2
  · norm_num
  · norm_num
  · push_neg at h1 h2
    constructor
    · have h0 : (0:ℚ) ≤ (90/100 - 65/100) * (e - fy / 200000) / (3/1000) :=
        div_nonneg (by nlinarith) (by norm_num)
      linarith
    · have hd : (90/100 - 65/100 : ℚ) * (e - fy / 200000) / (3/1000) ≤ 1/4 := by
        rw [div_le_iff₀ (by norm_num : (0:ℚ) < 3/1000)]
        nlinarith
      linarith

/-- `Phi` is monotone non-decreasing in the strain argument (any `fy`). -/
theorem Phi_mono (fy e₁ e₂ : ℚ) (hle : e₁ ≤ e₂) : Phi e₁ fy ≤ Phi e₂ fy := by
  have hb₁ := Phi_bounds e₁ fy
  have hb₂ := Phi_bounds e₂ fy
  by_cases htop : e₂ ≥ fy / Es + 3/1000
  · rw [show Phi e₂ fy = PhiFlexure from by rw [Phi, if_pos htop]]
    exact le_trans hb₁.2 (by unfold PhiFlexure; norm_num)
  · by_cases hbot : e₂ ≤ fy / Es
    · have h1 : e₁ ≤ fy / Es := le_trans hle hbot
      have h1' : ¬ e₁ ≥ fy / Es + 3/1000 := by unfold Es at *; push_neg; linarith
      rw [Phi, if_neg h1', if_pos h1, Phi, if_neg htop, if_pos hbot]
    · push_neg at htop hbot
      rw [show Phi e₂ fy =
          PhiCompression + (PhiFlexure - PhiCompression) * (e₂ - fy / Es) / (3/1000) from by
        rw [Phi, if_neg (by push_neg; exact htop), if_neg (by push_neg; exact hbot)]]
      by_cases h1 : e₁ ≥ fy / Es + 3/1000
      · exact absurd (lt_of_lt_of_le htop (le_trans h1 hle)) (lt_irrefl _)
      · by_cases h2 : e₁ ≤ fy / Es
        · rw [Phi, if_neg h1, if_pos h2]
          have h0 : (0:ℚ) ≤ (PhiFlexure - PhiCompression) * (e₂ - fy / Es) / (3/1000) := by
            unfold PhiFlexure PhiCompression
            exact div_nonneg (by nlinarith) (by norm_num)
          linarith
        · rw [Phi, if_neg h1, if_neg h2]
          push_neg at h2
          have h9 : (PhiFlexure - PhiCompression) * (e₁ - fy / Es) ≤
              (PhiFlexure - PhiCompression) * (e₂ - fy / Es) := by
            unfold PhiFlexure PhiCompression; nlinarith
          have h10 := (div_le_div_iff_of_pos_right (by norm_num : (0:ℚ) < 3/1000)).mpr h9
          linarith

end nscp

/-- C8: the stress-block factor equals 0.85 for `fc ≤ 28`, equals
`max 0.65 (0.85 − 0.05·(fc−28)/7)` for `fc > 28`, and in particular
`Beta1 42 = 0.75`. -/
theorem C8_beta1_values :
    (∀ fc : ℚ, fc ≤ 28 → nscp.Beta1 fc = 0.85) ∧
    (∀ fc : ℚ, 28 < fc → nscp.Beta1 fc = max 0.65 (0.85 - 0.05 * (fc - 28) / 7)) ∧
    nscp.Beta1 42 = 0.75 := by
  have h2 : ∀ fc : ℚ, 28 < fc →
      nscp.Beta1 fc = max 0.65 (0.85 - 0.05 * (fc - 28) / 7) := by
    intro fc h
    rw [nscp.Beta1, if_neg (by linarith), maxQ_eq_max, max_comm]
    norm_num [nscp.Beta1Max, nscp.Beta1Min]
  refine ⟨fun fc h => ?_, h2, ?_⟩
  · rw [nscp.Beta1, if_pos h]; norm_num [nscp.Beta1Max]
  · rw [h2 42 (by norm_num), max_eq_right (by norm_num)]
    norm_num

/-- Witness for C8 at concrete inputs `fc = 28` and `fc = 42`. -/
theorem C8_beta1_values_witness :
    nscp.Beta1 28 = 0.85 ∧ nscp.Beta1 42 = max 0.65 (0.85 - 0.05 * (42 - 28) / 7) := by
  exact ⟨C8_beta1_values.1 28 (by norm_num),
    C8_beta1_values.2.1 42 (by norm_num)⟩

/-- C9: for every fixed `fy > 0` the strength-reduction factor `Phi` is monotone
non-decreasing in the tensile strain, and its value lies in `[0.65, 0.90]` for
all inputs. -/
theorem C9_phi_monotone_bounded :
    (∀ fy e₁ e₂ : ℚ, 0 < fy → e₁ ≤ e₂ → nscp.Phi e₁ fy ≤ nscp.Phi e₂ fy) ∧
    (∀ e fy : ℚ, 0.65 ≤ nscp.Phi e fy ∧ nscp.Phi e fy ≤ 0.90) := by
  constructor
  · exact fun fy e₁ e₂ _ hle => nscp.Phi_mono fy e₁ e₂ hle
  · intro e fy
    have := nscp.Phi_bounds e fy
    constructor
    · exact le_trans (by norm_num) this.1
    · exact le_trans this.2 (by norm_num)

/-- Witness for C9 at concrete strains (fy = 415). -/
theorem C9_phi_monotone_bounded_witness :
    nscp.Phi 0.003 415 ≤ nscp.Phi 0.004 415 ∧
    0.65 ≤ nscp.Phi 0.004 415 ∧ nscp.Phi 0.004 415 ≤ 0.90 := by
  exact ⟨C9_phi_monotone_bounded.1 415 0.003 0.004 (by norm_num) (by norm_num),
    C9_phi_monotone_bounded.2 0.004 415⟩

namespace beam

/-- `SinglyReinforced` rectangular beam section (internal/beam).  The Go
methods store `Mu` / `As` back into the receiver before computing; those
stores are never read by any later computation, so the embedding keeps the
receiver immutable. -/
structure SinglyReinforced where
  Width : ℚ
  Height : ℚ
  EffectiveDepth : ℚ
  Cover : ℚ
  Fc : ℚ
  Fy : ℚ


/-- `NewSinglyReinforced`: effective depth is `height − cover`. -/
def NewSinglyReinforced (width height cover fc fy : ℚ) : SinglyReinforced :=
  { Width := width, Height := height, Cover := cover,
    EffectiveDepth := height - cover, Fc := fc, Fy := fy }

/-- `DesignResult` for the singly reinforced beam. -/
structure DesignResult where
  AsRequired : ℚ
  AsMin : ℚ
  AsMax : ℚ
  AsProvided : ℚ
  RhoRequired : ℚ
  RhoMin : ℚ
  RhoMax : ℚ
  RhoBalanced : ℚ
  A : ℚ
  C : ℚ
  EpsilonT : ℚ
  Phi : ℚ
  PhiMn : ℚ
  IsTensionControlled : Bool
  IsAdequate : Bool
  Message : String


/-- `AnalysisResult` for the singly reinforced beam. -/
structure AnalysisResult where
  A : ℚ
  C : ℚ
  Beta1 : ℚ
  EpsilonT : ℚ
  Phi : ℚ
  Rho : ℚ
  RhoMin : ℚ
  RhoMax : ℚ
  RhoBalanced : ℚ
  Mn : ℚ
  PhiMn : ℚ
  IsTensionControlled : Bool
  MeetsMinReinf : Bool
  MeetsMaxReinf : Bool
  Message : String


/-- Go local `aMax` in `SinglyReinforced.Design`:
`RhoMax·fy·b·d / (0.85·fc·b)`. -/
def SinglyReinforced.aMax (b : SinglyReinforced) : ℚ :=
  nscp.RhoMax b.Fc b.Fy * b.Fy * b.Width * b.EffectiveDepth / (85/100 * b.Fc * b.Width)

/-- Go local `phiMnMax` in `SinglyReinforced.Design`: the maximum
tension-controlled capacity `φ·0.85·fc·b·aMax·(d − aMax/2)/1e6`. -/
def SinglyReinforced.phiMnMax (b : SinglyReinforced) : ℚ :=
  nscp.PhiFlexure * (85/100) * b.Fc * b.Width * b.aMax *
    (b.EffectiveDepth - b.aMax / 2) / 1000000

/-- `SinglyReinforced.Design` from internal/beam (returns `none` on the Go
error paths). -/
def SinglyReinforced.Design (b : SinglyReinforced) (mu : ℚ) : Option DesignResult :=
  if b.Width ≤ 0 ∨ b.EffectiveDepth ≤ 0 then none
  else if b.Fc ≤ 0 ∨ b.Fy ≤ 0 then none
  else
    let rhoMin := nscp.RhoMin b.Fc b.Fy
    let rhoMax := nscp.RhoMax b.Fc b.Fy
    let rhoBal := nscp.RhoBalanced b.Fc b.Fy
    let asMin := rhoMin * b.Width * b.EffectiveDepth
    let asMax := rhoMax * b.Width * b.EffectiveDepth
    let muNmm := mu * 1000000
    let beta1 := nscp.Beta1 b.Fc
    if b.phiMnMax < mu then
      some { AsRequired := 0, AsMin := asMin, AsMax := asMax, AsProvided := 0,
             RhoRequired := 0, RhoMin := rhoMin, RhoMax := rhoMax, RhoBalanced := rhoBal,
             A := 0, C := 0, EpsilonT := 0, Phi := 0, PhiMn := b.phiMnMax,
             IsTensionControlled := false, IsAdequate := false,
             Message := "Section inadequate for singly reinforced design. Consider increasing section size or using doubly reinforced design." }
    else
      let phi := nscp.PhiFlexure
      let Rn := muNmm / (phi * b.Width * b.EffectiveDepth ^ 2)
      let term := 2 * Rn / (85/100 * b.Fc)
      if 1 < term then
        some { AsRequired := 0, AsMin := asMin, AsMax := asMax, AsProvided := 0,
               RhoRequired := 0, RhoMin := rhoMin, RhoMax := rhoMax, RhoBalanced := rhoBal,
               A := 0, C := 0, EpsilonT := 0, Phi := 0, PhiMn := 0,
               IsTensionControlled := false, IsAdequate := false,
               Message := "Section inadequate - moment too high for singly reinforced design" }
      else
        let rhoRequired := 85/100 * b.Fc / b.Fy * (1 - sqrtQ (1 - term))
        let rhoUsed := if rhoRequired < rhoMin then rhoMin else rhoRequired
        let asRequired := rhoUsed * b.Width * b.EffectiveDepth
        let A := asRequired * b.Fy / (85/100 * b.Fc * b.Width)
        let C := A / beta1
        let epsT := nscp.EpsilonCU * (b.EffectiveDepth - C) / C
        let phiActual := nscp.Phi epsT b.Fy
        let phiMn := phiActual * asRequired * b.Fy * (b.EffectiveDepth - A / 2) / 1000000
        some { AsRequired := asRequired, AsMin := asMin, AsMax := asMax,
               AsProvided := asRequired,
               RhoRequired := rhoRequired, RhoMin := rhoMin, RhoMax := rhoMax,
               RhoBalanced := rhoBal,
               A := A, C := C, EpsilonT := epsT, Phi := phiActual, PhiMn := phiMn,
               IsTensionControlled := decide (epsT ≥ 5/1000),
               IsAdequate := decide (phiMn ≥ mu),
               Message :=
                 if phiMn ≥ mu then
                   if epsT ≥ 5/1000 then "Design OK - Section is tension-controlled"
                   else "Design OK - Section is in transition zone"
                 else "" }

/-- `SinglyReinforced.Analyze` from internal/beam. -/
def SinglyReinforced.Analyze (b : SinglyReinforced) (as : ℚ) : Option AnalysisResult :=
  if b.Width ≤ 0 ∨ b.EffectiveDepth ≤ 0 then none
  else if b.Fc ≤ 0 ∨ b.Fy ≤ 0 then none
  else if as ≤ 0 then none
  else
    let beta1 := nscp.Beta1 b.Fc
    let rhoMin := nscp.RhoMin b.Fc b.Fy
    let rhoMax := nscp.RhoMax b.Fc b.Fy
    let rhoBal := nscp.RhoBalanced b.Fc b.Fy
    let rho := as / (b.Width * b.EffectiveDepth)
    let A := as * b.Fy / (85/100 * b.Fc * b.Width)
    let C := A / beta1
    let epsT := nscp.EpsilonCU * (b.EffectiveDepth - C) / C
    let phi := nscp.Phi epsT b.Fy
    let Mn := as * b.Fy * (b.EffectiveDepth - A / 2) / 1000000
    some { A := A, C := C, Beta1 := beta1, EpsilonT := epsT, Phi := phi,
           Rho := rho, RhoMin := rhoMin, RhoMax := rhoMax, RhoBalanced := rhoBal,
           Mn := Mn, PhiMn := phi * Mn,
           IsTensionControlled := decide (epsT ≥ 5/1000),
           MeetsMinReinf := decide (rho ≥ rhoMin),
           MeetsMaxReinf := decide (rho ≤ rhoMax),
           Message :=
             (if epsT ≥ 5/1000 then "Section is tension-controlled"
              else if epsT ≥ b.Fy / nscp.Es then "Section is in transition zone"
              else "Section is compression-controlled") ++
             (if rho ≥ rhoMin then "" else " | WARNING: Below minimum reinforcement") ++
             (if rho ≤ rhoMax then "" else " | WARNING: Exceeds maximum reinforcement") }

/-- The minimum reinforcement ratio is strictly positive for `fy > 0`. -/
theorem rhoMin_pos (fc fy : ℚ) (hfy : 0 < fy) : 0 < nscp.RhoMin fc fy := by
  have h := le_maxQ_right (sqrtQ fc / (4 * fy)) (14/10 / fy)
  have : (0:ℚ) < 14/10 / fy := by positivity
  unfold nscp.RhoMin
  linarith

end beam

theorem sqrtQ_1521_1600 : sqrtQ (1521/1600) = 39/40 := by
  have h : (1521/1600 : ℚ) = (⟨1521, 1600, by norm_num, by decide⟩ : ℚ) := by
    rw [Rat.mk'_eq_divInt, Rat.divInt_eq_div]; norm_num
  rw [h, sqrtQ]
  show mkRat (Int.sqrt 1521) (Nat.sqrt 1600) = 39/40
  rw [show (1521:ℤ) = 39*39 by norm_num, Int.sqrt_eq,
      show (1600:ℕ) = 40*40 by norm_num, Nat.sqrt_eq]
  rw [Rat.mkRat_eq_divInt, Rat.divInt_eq_div]
  norm_num

theorem sqrtQ_25 : sqrtQ 25 = 5 := by with_unfolding_all decide

theorem sqrtQ_28 : sqrtQ 28 = 5 := by with_unfolding_all decide

/-- C2: for a rectangular singly-reinforced section with positive width,
effective depth, fc and fy, and a target moment strictly below the
tension-controlled maximum, if `Design` reports adequate then `Analyze`
applied to the returned `AsRequired` yields `PhiMn ≥ Mu`. -/
theorem C2_design_analyze_roundtrip (b : beam.SinglyReinforced) (mu : ℚ)
    (hw : 0 < b.Width) (hd : 0 < b.EffectiveDepth) (hfc : 0 < b.Fc) (hfy : 0 < b.Fy)
    (hmu : mu < b.phiMnMax) (r : beam.DesignResult)
    (hr : b.Design mu = some r) (hAd : r.IsAdequate = true) :
    ∃ r', b.Analyze r.AsRequired = some r' ∧ mu ≤ r'.PhiMn := by
  simp only [beam.SinglyReinforced.Design] at hr
  rw [if_neg (by push_neg; exact ⟨hw, hd⟩), if_neg (by push_neg; exact ⟨hfc, hfy⟩),
      if_neg (not_lt.mpr (le_of_lt hmu))] at hr
  split at hr
  · rw [Option.some.injEq] at hr
    rw [← hr] at hAd
    simp at hAd
  · rw [Option.some.injEq] at hr
    subst hr
    simp only at hAd ⊢
    rw [decide_eq_true_iff] at hAd
    have hrhoUsed : 0 < (if 85/100 * b.Fc / b.Fy * (1 - sqrtQ
        (1 - 2 * (mu * 1000000 / (nscp.PhiFlexure * b.Width * b.EffectiveDepth ^ 2)) /
          (85/100 * b.Fc))) < nscp.RhoMin b.Fc b.Fy then nscp.RhoMin b.Fc b.Fy
        else 85/100 * b.Fc / b.Fy * (1 - sqrtQ
        (1 - 2 * (mu * 1000000 / (nscp.PhiFlexure * b.Width * b.EffectiveDepth ^ 2)) /
          (85/100 * b.Fc)))) := by
      split
      · exact beam.rhoMin_pos b.Fc b.Fy hfy
      · rename_i hcl
        push_neg at hcl
        exact lt_of_lt_of_le (beam.rhoMin_pos b.Fc b.Fy hfy) hcl
    have hAs : 0 < (if 85/100 * b.Fc / b.Fy * (1 - sqrtQ
        (1 - 2 * (mu * 1000000 / (nscp.PhiFlexure * b.Width * b.EffectiveDepth ^ 2)) /
          (85/100 * b.Fc))) < nscp.RhoMin b.Fc b.Fy then nscp.RhoMin b.Fc b.Fy
        else 85/100 * b.Fc / b.Fy * (1 - sqrtQ
        (1 - 2 * (mu * 1000000 / (nscp.PhiFlexure * b.Width * b.EffectiveDepth ^ 2)) /
          (85/100 * b.Fc)))) * b.Width * b.EffectiveDepth :=
      mul_pos (mul_pos hrhoUsed hw) hd
    simp only [beam.SinglyReinforced.Analyze]
    rw [if_neg (by push_neg; exact ⟨hw, hd⟩), if_neg (by push_neg; exact ⟨hfc, hfy⟩),
        if_neg (not_le.mpr hAs)]
    refine ⟨_, rfl, ?_⟩
    simp only
    calc mu ≤ _ := hAd
    _ = _ := by ring

/-- Concrete section for the C2 witness (`fc = 25` so every square root the
computation reaches is exact). -/
def B2 : beam.SinglyReinforced := beam.NewSinglyReinforced 300 500 65 25 415

/-- Concrete target moment for the C2 witness, chosen so that the design
formula's discriminant is the exact square `1521/1600`. -/
def MU2 : ℚ := 79 * 2171356875 / 6400000000

theorem rhoMin_25_415 : nscp.RhoMin 25 415 = 14/10/415 := by
  rw [nscp.RhoMin, sqrtQ_25, maxQ, if_pos (by norm_num)]

/-- Witness for C2: the design at `B2`, `MU2` is adequate, and the round-trip
analysis capacity covers the demand. -/
theorem C2_design_analyze_roundtrip_witness :
    ∃ r r', B2.Design MU2 = some r ∧ r.IsAdequate = true ∧
      B2.Analyze r.AsRequired = some r' ∧ MU2 ≤ r'.PhiMn := by
  have hB : B2 = ⟨300, 500, 435, 65, 25, 415⟩ := by
    simp only [B2, beam.NewSinglyReinforced, beam.SinglyReinforced.mk.injEq]
    norm_num
  have hr0 : ∃ r, B2.Design MU2 = some r ∧ r.IsAdequate = true := by
    rw [hB]
    simp only [beam.SinglyReinforced.Design]
    rw [if_neg (by norm_num), if_neg (by norm_num),
        if_neg (by
          push_neg
          simp only [beam.SinglyReinforced.phiMnMax, beam.SinglyReinforced.aMax,
            nscp.RhoMax, nscp.Beta1, nscp.Beta1Max, nscp.EpsilonCU, nscp.PhiFlexure, MU2]
          norm_num)]
    rw [show (1 - 2 * (MU2 * 1000000 / (nscp.PhiFlexure * 300 * 435 ^ 2)) /
          (85/100 * 25) : ℚ) = 1521/1600 from by
        simp only [MU2, nscp.PhiFlexure]; norm_num]
    rw [sqrtQ_1521_1600]
    rw [if_neg (by simp only [MU2, nscp.PhiFlexure]; norm_num)]
    rw [rhoMin_25_415]
    rw [if_pos (by norm_num)]
    refine ⟨_, rfl, ?_⟩
    simp only
    rw [decide_eq_true_iff]
    simp only [nscp.EpsilonCU, nscp.Beta1, nscp.Phi, nscp.Es, nscp.PhiFlexure,
      nscp.PhiCompression, nscp.Beta1Max, MU2]
    norm_num
  obtain ⟨r, hr, hAd⟩ := hr0
  obtain ⟨r', h1, h2⟩ := C2_design_analyze_roundtrip B2 MU2
    (by rw [hB]; norm_num) (by rw [hB]; norm_num) (by rw [hB]; norm_num)
    (by rw [hB]; norm_num)
    (by
      rw [hB]
      simp only [beam.SinglyReinforced.phiMnMax, beam.SinglyReinforced.aMax,
        nscp.RhoMax, nscp.Beta1, nscp.Beta1Max, nscp.EpsilonCU, nscp.PhiFlexure, MU2]
      norm_num)
    r hr hAd
  exact ⟨r, r', hr, hAd, h1, h2⟩

/-- C7: when the demanded moment strictly exceeds the maximum tension-controlled
capacity, `SinglyReinforced.Design` returns a normal result record (no error)
with `IsAdequate = false`, the explanatory inadequate message, and
`PhiMn = phiMnMax`. -/
theorem C7_singly_design_inadequate (b : beam.SinglyReinforced) (mu : ℚ)
    (hw : 0 < b.Width) (hd : 0 < b.EffectiveDepth) (hfc : 0 < b.Fc) (hfy : 0 < b.Fy)
    (hmu : b.phiMnMax < mu) :
    ∃ r : beam.DesignResult, b.Design mu = some r ∧ r.IsAdequate = false ∧
      r.PhiMn = b.phiMnMax ∧
      r.Message = "Section inadequate for singly reinforced design. Consider increasing section size or using doubly reinforced design." := by
  simp only [beam.SinglyReinforced.Design]
  rw [if_neg (by push_neg; exact ⟨hw, hd⟩), if_neg (by push_neg; exact ⟨hfc, hfy⟩),
      if_pos hmu]
  exact ⟨_, rfl, rfl, rfl, rfl⟩

/-- Concrete section for the C7 witness. -/
def B7 : beam.SinglyReinforced := beam.NewSinglyReinforced 300 500 65 28 415

namespace beam

/-- `DoublyReinforced` rectangular beam section (internal/beam). -/
structure DoublyReinforced where
  Width : ℚ
  Height : ℚ
  EffectiveDepth : ℚ
  Cover : ℚ
  CoverComp : ℚ
  Fc : ℚ
  Fy : ℚ


/-- `NewDoublyReinforced`: effective depth is `height − cover`. -/
def NewDoublyReinforced (width height cover coverComp fc fy : ℚ) : DoublyReinforced :=
  { Width := width, Height := height, Cover := cover, CoverComp := coverComp,
    EffectiveDepth := height - cover, Fc := fc, Fy := fy }

/-- `DoublyDesignResult` (internal/beam). -/
structure DoublyDesignResult where
  RequiresCompSteel : Bool
  Mu1 : ℚ
  Mu2 : ℚ
  As1 : ℚ
  As2 : ℚ
  AsTotal : ℚ
  AscRequired : ℚ
  AsMin : ℚ
  AsMax : ℚ
  RhoMin : ℚ
  RhoMax : ℚ
  RhoBalanced : ℚ
  AMax : ℚ
  CMax : ℚ
  FscStress : ℚ
  CompYielded : Bool
  EpsilonT : ℚ
  EpsilonSc : ℚ
  Phi : ℚ
  PhiMn : ℚ
  IsTensionControlled : Bool
  IsAdequate : Bool
  Message : String


/-- `DoublyAnalysisResult` (internal/beam). -/
structure DoublyAnalysisResult where
  A : ℚ
  C : ℚ
  Beta1 : ℚ
  EpsilonT : ℚ
  EpsilonSc : ℚ
  FsStress : ℚ
  FscStress : ℚ
  TensionYielded : Bool
  CompYielded : Bool
  Rho : ℚ
  RhoComp : ℚ
  RhoMin : ℚ
  RhoMax : ℚ
  RhoBalanced : ℚ
  Cc : ℚ
  Cs : ℚ
  T : ℚ
  Phi : ℚ
  Mn : ℚ
  PhiMn : ℚ
  IsTensionControlled : Bool
  MeetsMinReinf : Bool
  Message : String


/-- Go local `AMax` in `DoublyReinforced.Design`:
`RhoMax·fy·b·d / (0.85·fc·b)`. -/
def DoublyReinforced.AMax (b : DoublyReinforced) : ℚ :=
  nscp.RhoMax b.Fc b.Fy * b.Fy * b.Width * b.EffectiveDepth / (85/100 * b.Fc * b.Width)

/-- Go local `CMax` in `DoublyReinforced.Design`: `AMax / β1`. -/
def DoublyReinforced.CMax (b : DoublyReinforced) : ℚ :=
  b.AMax / nscp.Beta1 b.Fc

/-- Go local `Mu1Max` in `DoublyReinforced.Design`: the singly-reinforced
maximum moment `φ·0.85·fc·b·AMax·(d − AMax/2)/1e6`. -/
def DoublyReinforced.Mu1Max (b : DoublyReinforced) : ℚ :=
  nscp.PhiFlexure * (85/100) * b.Fc * b.Width * b.AMax *
    (b.EffectiveDepth - b.AMax / 2) / 1000000

/-- `DoublyReinforced.Design` from internal/beam (returns `none` on the Go
error paths). -/
def DoublyReinforced.Design (b : DoublyReinforced) (mu : ℚ) :
    Option DoublyDesignResult :=
  if b.Width ≤ 0 ∨ b.EffectiveDepth ≤ 0 then none
  else if b.Fc ≤ 0 ∨ b.Fy ≤ 0 then none
  else if b.CoverComp ≤ 0 then none
  else
    let beta1 := nscp.Beta1 b.Fc
    let rhoMin := nscp.RhoMin b.Fc b.Fy
    let rhoMax := nscp.RhoMax b.Fc b.Fy
    let rhoBal := nscp.RhoBalanced b.Fc b.Fy
    let asMin := rhoMin * b.Width * b.EffectiveDepth
    let asMax := rhoMax * b.Width * b.EffectiveDepth
    let phi := nscp.PhiFlexure
    let muNmm := mu * 1000000
    if mu ≤ b.Mu1Max then
      -- singly reinforced is adequate
      let Rn := muNmm / (phi * b.Width * b.EffectiveDepth ^ 2)
      let term := 2 * Rn / (85/100 * b.Fc)
      let rhoRequired := 85/100 * b.Fc / b.Fy * (1 - sqrtQ (1 - term))
      let rhoUsed := if rhoRequired < rhoMin then rhoMin else rhoRequired
      let as1 := rhoUsed * b.Width * b.EffectiveDepth
      let a := as1 * b.Fy / (85/100 * b.Fc * b.Width)
      let c := a / beta1
      let epsT := nscp.EpsilonCU * (b.EffectiveDepth - c) / c
      let phiActual := nscp.Phi epsT b.Fy
      some { RequiresCompSteel := false, Mu1 := mu, Mu2 := 0,
             As1 := as1, As2 := 0, AsTotal := as1, AscRequired := 0,
             AsMin := asMin, AsMax := asMax,
             RhoMin := rhoMin, RhoMax := rhoMax, RhoBalanced := rhoBal,
             AMax := b.AMax, CMax := b.CMax,
             FscStress := 0, CompYielded := false,
             EpsilonT := epsT, EpsilonSc := 0,
             Phi := phiActual,
             PhiMn := phiActual * as1 * b.Fy * (b.EffectiveDepth - a / 2) / 1000000,
             IsTensionControlled := decide (epsT ≥ 5/1000),
             IsAdequate := true,
             Message := "Singly reinforced design is adequate" }
    else
      -- doubly reinforced design required
      let mu2 := mu - b.Mu1Max
      let epsilonSc := nscp.EpsilonCU * (b.CMax - b.CoverComp) / b.CMax
      let epsilonY := b.Fy / nscp.Es
      let fscStress := if epsilonSc ≥ epsilonY then b.Fy else epsilonSc * nscp.Es
      let compYielded := decide (epsilonSc ≥ epsilonY)
      let leverArm := b.EffectiveDepth - b.CoverComp
      let as2 := mu2 * 1000000 / (phi * b.Fy * leverArm)
      let asTotal := asMax + as2
      let ascRequired := as2 * b.Fy / fscStress
      let Mn1 := asMax * b.Fy * (b.EffectiveDepth - b.AMax / 2)
      let Mn2 := as2 * b.Fy * leverArm
      let phiMn := nscp.PhiFlexure * (Mn1 + Mn2) / 1000000
      some { RequiresCompSteel := true, Mu1 := b.Mu1Max, Mu2 := mu2,
             As1 := asMax, As2 := as2, AsTotal := asTotal, AscRequired := ascRequired,
             AsMin := asMin, AsMax := asMax,
             RhoMin := rhoMin, RhoMax := rhoMax, RhoBalanced := rhoBal,
             AMax := b.AMax, CMax := b.CMax,
             FscStress := fscStress, CompYielded := compYielded,
             EpsilonT := 5/1000, EpsilonSc := epsilonSc,
             Phi := nscp.PhiFlexure,
             PhiMn := phiMn,
             IsTensionControlled := true,
             IsAdequate := decide (phiMn ≥ mu * (999/1000)),
             Message :=
               if phiMn ≥ mu * (999/1000) then
                 if compYielded then
                   "Doubly reinforced design OK - Compression steel yields"
                 else
                   "Doubly reinforced design OK - Compression steel does not yield"
               else "Design inadequate - Consider increasing section size" }

/-- One pass of the `DoublyReinforced.Analyze` equilibrium loop body: the new
neutral-axis depth computed from force equilibrium at trial depth `c`. -/
def DoublyReinforced.analyzeStep (b : DoublyReinforced) (as asc c : ℚ) : ℚ :=
  let beta1 := nscp.Beta1 b.Fc
  let epsilonT := nscp.EpsilonCU * (b.EffectiveDepth - c) / c
  let epsilonSc := nscp.EpsilonCU * (c - b.CoverComp) / c
  let fs := if epsilonT < 0 then 0 else minQ (epsilonT * nscp.Es) b.Fy
  let fsc := if 0 < epsilonSc then minQ (epsilonSc * nscp.Es) b.Fy
             else maxQ (epsilonSc * nscp.Es) (-b.Fy)
  let a := beta1 * c
  let fscNet := if b.CoverComp ≤ a then fsc - 85/100 * b.Fc else fsc
  (as * fs - asc * fscNet) / (85/100 * b.Fc * b.Width * beta1)

/-- The 50-iteration damped fixed-point loop of `DoublyReinforced.Analyze`.
Returns the final trial depth and whether the `|Δc| < 0.01` break was taken
(the Go loop has no explicit flag; the Bool instruments convergence). -/
def DoublyReinforced.analyzeLoop (b : DoublyReinforced) (as asc : ℚ) :
    ℕ → ℚ → ℚ × Bool
  | 0, c => (c, false)
  | n + 1, c =>
      let cNew := b.analyzeStep as asc c
      if absQ (cNew - c) < 1/100 then (cNew, true)
      else DoublyReinforced.analyzeLoop b as asc n ((c + cNew) / 2)

/-- Initial guess of the equilibrium loop (both steels assumed to yield). -/
def DoublyReinforced.c0 (b : DoublyReinforced) (as asc : ℚ) : ℚ :=
  (as * b.Fy - asc * (b.Fy - 85/100 * b.Fc)) /
    (85/100 * b.Fc * b.Width * nscp.Beta1 b.Fc)

/-- The neutral-axis depth `c` after the 50-iteration loop. -/
def DoublyReinforced.analyzeC (b : DoublyReinforced) (as asc : ℚ) : ℚ :=
  (b.analyzeLoop as asc 50 (b.c0 as asc)).1

/-- Whether the equilibrium loop converged before its 50-iteration cap. -/
def DoublyReinforced.analyzeConverged (b : DoublyReinforced) (as asc : ℚ) : Bool :=
  (b.analyzeLoop as asc 50 (b.c0 as asc)).2

/-- `DoublyReinforced.Analyze` from internal/beam (returns `none` on the Go
error paths). -/
def DoublyReinforced.Analyze (b : DoublyReinforced) (as asc : ℚ) :
    Option DoublyAnalysisResult :=
  if b.Width ≤ 0 ∨ b.EffectiveDepth ≤ 0 then none
  else if b.Fc ≤ 0 ∨ b.Fy ≤ 0 then none
  else if as ≤ 0 then none
  else if asc < 0 then none
  else
    let beta1 := nscp.Beta1 b.Fc
    let rhoMin := nscp.RhoMin b.Fc b.Fy
    let rhoMax := nscp.RhoMax b.Fc b.Fy
    let rhoBal := nscp.RhoBalanced b.Fc b.Fy
    let rho := as / (b.Width * b.EffectiveDepth)
    let rhoComp := asc / (b.Width * b.EffectiveDepth)
    let epsilonY := b.Fy / nscp.Es
    let c := b.analyzeC as asc
    let A := beta1 * c
    let epsilonT := nscp.EpsilonCU * (b.EffectiveDepth - c) / c
    let epsilonSc := nscp.EpsilonCU * (c - b.CoverComp) / c
    let fsStress := minQ (epsilonT * nscp.Es) b.Fy
    let fscStress := if 0 < epsilonSc then minQ (epsilonSc * nscp.Es) b.Fy else 0
    let Cc := 85/100 * b.Fc * b.Width * A / 1000
    let fscNet := if b.CoverComp ≤ A then fscStress - 85/100 * b.Fc else fscStress
    let Cs := asc * fscNet / 1000
    let T := as * fsStress / 1000
    let phi := nscp.Phi epsilonT b.Fy
    let Mn := (Cc * (b.EffectiveDepth - A / 2) + Cs * (b.EffectiveDepth - b.CoverComp)) / 1000
    some { A := A, C := c, Beta1 := beta1,
           EpsilonT := epsilonT, EpsilonSc := epsilonSc,
           FsStress := fsStress, FscStress := fscStress,
           TensionYielded := decide (epsilonT ≥ epsilonY),
           CompYielded := if 0 < epsilonSc then decide (epsilonSc ≥ epsilonY) else false,
           Rho := rho, RhoComp := rhoComp,
           RhoMin := rhoMin, RhoMax := rhoMax, RhoBalanced := rhoBal,
           Cc := Cc, Cs := Cs, T := T,
           Phi := phi, Mn := Mn, PhiMn := phi * Mn,
           IsTensionControlled := decide (epsilonT ≥ 5/1000),
           MeetsMinReinf := decide (rho ≥ rhoMin),
           Message :=
             (if epsilonT ≥ 5/1000 then "Section is tension-controlled"
              else if epsilonT ≥ epsilonY then "Section is in transition zone"
              else "Section is compression-controlled") ++
             (if rho ≥ rhoMin then "" else " | WARNING: Below minimum reinforcement") }

end beam

/-- Witness for C7: `Mu = 400` kN·m exceeds `B7.phiMnMax` (≈ 325.8 kN·m). -/
theorem C7_singly_design_inadequate_witness :
    ∃ r : beam.DesignResult, B7.Design 400 = some r ∧ r.IsAdequate = false ∧
      r.PhiMn = B7.phiMnMax ∧
      r.Message = "Section inadequate for singly reinforced design. Consider increasing section size or using doubly reinforced design." := by
  refine C7_singly_design_inadequate B7 400 ?_ ?_ ?_ ?_ ?_
  · norm_num [B7, beam.NewSinglyReinforced]
  · norm_num [B7, beam.NewSinglyReinforced]
  · norm_num [B7, beam.NewSinglyReinforced]
  · norm_num [B7, beam.NewSinglyReinforced]
  · simp only [B7, beam.NewSinglyReinforced, beam.SinglyReinforced.phiMnMax,
      beam.SinglyReinforced.aMax, nscp.RhoMax, nscp.Beta1, nscp.Beta1Max,
      nscp.EpsilonCU, nscp.PhiFlexure]
    norm_num

/-- C6: the compression-steel branch of `DoublyReinforced.Design`.  When the
demand exceeds the singly-reinforced maximum `Mu1Max`, the returned record has
`ε'sc = εcu·(CMax−d')/CMax`, `f'sc = fy` if `ε'sc ≥ εy` and `ε'sc·Es`
otherwise, `AscRequired = As2·fy/f'sc`, and is pinned at the
tension-controlled limit (`EpsilonT = 0.005`, `Phi = 0.90`,
`IsTensionControlled = true`). -/
theorem C6_doubly_design_compression_branch (b : beam.DoublyReinforced) (mu : ℚ)
    (hw : 0 < b.Width) (hd : 0 < b.EffectiveDepth) (hfc : 0 < b.Fc) (hfy : 0 < b.Fy)
    (hdp : 0 < b.CoverComp) (hmu : b.Mu1Max < mu) :
    ∃ r : beam.DoublyDesignResult, b.Design mu = some r ∧
      r.RequiresCompSteel = true ∧
      r.EpsilonSc = nscp.EpsilonCU * (b.CMax - b.CoverComp) / b.CMax ∧
      r.FscStress = (if r.EpsilonSc ≥ b.Fy / nscp.Es then b.Fy
                     else r.EpsilonSc * nscp.Es) ∧
      r.AscRequired = r.As2 * b.Fy / r.FscStress ∧
      r.EpsilonT = 0.005 ∧ r.Phi = 0.90 ∧ r.IsTensionControlled = true := by
  simp only [beam.DoublyReinforced.Design]
  rw [if_neg (by push_neg; exact ⟨hw, hd⟩), if_neg (by push_neg; exact ⟨hfc, hfy⟩),
      if_neg (not_le.mpr hdp), if_neg (not_le.mpr hmu)]
  refine ⟨_, rfl, rfl, rfl, rfl, rfl, by norm_num, by norm_num [nscp.PhiFlexure], rfl⟩

/-- Concrete beam for the C6 witness. -/
def B6 : beam.DoublyReinforced := beam.NewDoublyReinforced 300 500 65 60 28 415

/-- Witness for C6 at `B6` with `Mu = 500` kN·m (above `Mu1Max ≈ 325.8`). -/
theorem C6_doubly_design_compression_branch_witness :
    ∃ r : beam.DoublyDesignResult, B6.Design 500 = some r ∧
      r.RequiresCompSteel = true ∧
      r.EpsilonSc = nscp.EpsilonCU * (B6.CMax - B6.CoverComp) / B6.CMax ∧
      r.FscStress = (if r.EpsilonSc ≥ B6.Fy / nscp.Es then B6.Fy
                     else r.EpsilonSc * nscp.Es) ∧
      r.AscRequired = r.As2 * B6.Fy / r.FscStress ∧
      r.EpsilonT = 0.005 ∧ r.Phi = 0.90 ∧ r.IsTensionControlled = true := by
  refine C6_doubly_design_compression_branch B6 500 ?_ ?_ ?_ ?_ ?_ ?_
  · norm_num [B6, beam.NewDoublyReinforced]
  · norm_num [B6, beam.NewDoublyReinforced]
  · norm_num [B6, beam.NewDoublyReinforced]
  · norm_num [B6, beam.NewDoublyReinforced]
  · norm_num [B6, beam.NewDoublyReinforced]
  · simp only [B6, beam.NewDoublyReinforced, beam.DoublyReinforced.Mu1Max,
      beam.DoublyReinforced.AMax, nscp.RhoMax, nscp.Beta1, nscp.Beta1Max,
      nscp.EpsilonCU, nscp.PhiFlexure]
    norm_num

/-- Concrete beam for C10: the compression cover `d' = 250` mm exceeds
`CMax ≈ 163.1` mm, so the compression steel sits below the neutral axis. -/
def B10 : beam.DoublyReinforced := beam.NewDoublyReinforced 300 500 65 250 28 415

/-- C10: there are valid doubly-reinforced design inputs (here `B10` with
`Mu = 500` kN·m > `Mu1Max`) for which `d' ≥ CMax`, making the computed
compression-steel stress negative; the division `AscRequired = As2·fy/f'sc`
is unguarded, so the call succeeds and returns a negative `AscRequired`
instead of rejecting the input. -/
theorem C10_unguarded_comp_steel_stress :
    B10.CMax < B10.CoverComp ∧
    ∃ r : beam.DoublyDesignResult, B10.Design 500 = some r ∧
      r.FscStress < 0 ∧ r.AscRequired < 0 ∧ 0 < r.As2 := by
  have hB : B10 = ⟨300, 500, 435, 65, 250, 28, 415⟩ := by
    simp only [B10, beam.NewDoublyReinforced, beam.DoublyReinforced.mk.injEq]
    norm_num
  rw [hB]
  constructor
  · simp only [beam.DoublyReinforced.CMax, beam.DoublyReinforced.AMax,
      nscp.RhoMax, nscp.Beta1, nscp.Beta1Max, nscp.EpsilonCU]
    norm_num
  · simp only [beam.DoublyReinforced.Design]
    rw [if_neg (by norm_num), if_neg (by norm_num), if_neg (by norm_num),
        if_neg (by
          simp only [beam.DoublyReinforced.Mu1Max, beam.DoublyReinforced.AMax,
            nscp.RhoMax, nscp.Beta1, nscp.Beta1Max, nscp.EpsilonCU, nscp.PhiFlexure]
          norm_num)]
    refine ⟨_, rfl, ?_, ?_, ?_⟩
    · simp only [beam.DoublyReinforced.CMax, beam.DoublyReinforced.AMax,
        nscp.RhoMax, nscp.Beta1, nscp.Beta1Max, nscp.EpsilonCU, nscp.Es]
      norm_num
    · simp only [beam.DoublyReinforced.CMax, beam.DoublyReinforced.AMax,
        beam.DoublyReinforced.Mu1Max, nscp.RhoMax, nscp.Beta1, nscp.Beta1Max,
        nscp.EpsilonCU, nscp.Es, nscp.PhiFlexure]
      norm_num
    · simp only [beam.DoublyReinforced.Mu1Max, beam.DoublyReinforced.AMax,
        nscp.RhoMax, nscp.Beta1, nscp.Beta1Max, nscp.EpsilonCU, nscp.PhiFlexure]
      norm_num

/-- C3 (amended, doubly-reinforced side): for every valid input,
`DoublyReinforced.Analyze` returns a record whose fields are computed from the
final trial depth of the 50-iteration loop (`analyzeC`), whether or not the
loop converged — so on cap exhaustion the caller still receives the values of
the last iteration, not zero defaults. -/
theorem C3_doubly_returns_last_iterate (b : beam.DoublyReinforced) (as asc : ℚ)
    (hw : 0 < b.Width) (hd : 0 < b.EffectiveDepth) (hfc : 0 < b.Fc) (hfy : 0 < b.Fy)
    (has : 0 < as) (hasc : 0 ≤ asc) :
    ∃ r : beam.DoublyAnalysisResult, b.Analyze as asc = some r ∧
      r.C = b.analyzeC as asc ∧
      r.A = nscp.Beta1 b.Fc * r.C ∧
      r.Cc = 85/100 * b.Fc * b.Width * r.A / 1000 ∧
      r.T = as * r.FsStress / 1000 ∧
      r.FsStress = minQ (nscp.EpsilonCU * (b.EffectiveDepth - r.C) / r.C * nscp.Es) b.Fy := by
  simp only [beam.DoublyReinforced.Analyze]
  rw [if_neg (by push_neg; exact ⟨hw, hd⟩), if_neg (by push_neg; exact ⟨hfc, hfy⟩),
      if_neg (not_le.mpr has), if_neg (not_lt.mpr hasc)]
  exact ⟨_, rfl, rfl, rfl, rfl, rfl, rfl⟩

/-- Beam for the C1 counterexample and the C3 witness: the compression steel
sits at `d' = 400` mm, far below the converged neutral axis (≈ 17 mm), so the
final stress recomputation zeroes the compression-steel force that the loop
balanced against. -/
def B1 : beam.DoublyReinforced := beam.NewDoublyReinforced 300 500 50 400 28 415

theorem B1_eq : B1 = ⟨300, 500, 450, 50, 400, 28, 415⟩ := by
  simp only [B1, beam.NewDoublyReinforced, beam.DoublyReinforced.mk.injEq]
  norm_num

/-- Witness for C3 at the concrete valid input `B1`, `As = 200`, `Asc = 50`. -/
theorem C3_doubly_returns_last_iterate_witness :
    ∃ r : beam.DoublyAnalysisResult, B1.Analyze 200 50 = some r ∧
      r.C = B1.analyzeC 200 50 ∧
      r.A = nscp.Beta1 B1.Fc * r.C ∧
      r.Cc = 85/100 * B1.Fc * B1.Width * r.A / 1000 ∧
      r.T = 200 * r.FsStress / 1000 ∧
      r.FsStress = minQ (nscp.EpsilonCU * (B1.EffectiveDepth - r.C) / r.C * nscp.Es) B1.Fy :=
  C3_doubly_returns_last_iterate B1 200 50
    (by rw [B1_eq]; norm_num) (by rw [B1_eq]; norm_num) (by rw [B1_eq]; norm_num)
    (by rw [B1_eq]; norm_num) (by norm_num) (by norm_num)

/-- On `[c₀, G]` (with `G = 103750/6069`) the equilibrium step of
`B1.Analyze 200 50` is the constant `G`: the tension steel is far past yield
and the compression steel is clamped at `−fy`, so force balance always
returns the same depth. -/
theorem B1_step_const (c : ℚ) (h1 : 63440/6069 ≤ c) (h2 : c ≤ 103750/6069) :
    B1.analyzeStep 200 50 c = 103750/6069 := by
  have hc : 0 < c := lt_of_lt_of_le (by norm_num) h1
  have hA : ¬ ((3:ℚ) / 1000 * (450 - c) / c < 0) := by
    push_neg
    exact div_nonneg (by nlinarith) (le_of_lt hc)
  have hB : ¬ ((3:ℚ) / 1000 * (450 - c) / c * 200000 ≤ 415) := by
    push_neg
    rw [div_mul_eq_mul_div, lt_div_iff₀ hc]
    nlinarith
  have hC : ¬ ((0:ℚ) < 3 / 1000 * (c - 400) / c) := by
    push_neg
    exact div_nonpos_iff.mpr (Or.inr ⟨by nlinarith, le_of_lt hc⟩)
  have hD : (3:ℚ) / 1000 * (c - 400) / c * 200000 ≤ -415 := by
    rw [div_mul_eq_mul_div, div_le_iff₀ hc]
    nlinarith
  have hE : ¬ ((400:ℚ) ≤ 85 / 100 * c) := by push_neg; nlinarith
  rw [B1_eq]
  simp only [beam.DoublyReinforced.analyzeStep, nscp.EpsilonCU, nscp.Es,
    nscp.Beta1, nscp.Beta1Max, minQ, maxQ]
  rw [if_pos (by norm_num : (28:ℚ) ≤ 28)]
  rw [if_neg hA, if_neg hB, if_neg hC, if_pos hD, if_neg hE]
  norm_num

/-- The damped loop of `B1.Analyze 200 50` halves the gap to `G` each
iteration and takes its convergence break with `c = G` exactly. -/
theorem B1_loop_converges : ∀ (n : ℕ) (c : ℚ), 63440/6069 ≤ c →
    c ≤ 103750/6069 → 103750/6069 - c < 1/100 * 2^n →
    B1.analyzeLoop 200 50 (n+1) c = (103750/6069, true) := by
  intro n
  induction n with
  | zero =>
    intro c h1 h2 h3
    have hnn : ¬ ((103750:ℚ)/6069 - c < 0) := by push_neg; linarith
    simp only [beam.DoublyReinforced.analyzeLoop]
    rw [B1_step_const c h1 h2, absQ, if_neg hnn]
    rw [if_pos (show (103750:ℚ)/6069 - c < 1/100 by norm_num at h3; linarith)]
  | succ n ih =>
    intro c h1 h2 h3
    have hnn : ¬ ((103750:ℚ)/6069 - c < 0) := by push_neg; linarith
    simp only [beam.DoublyReinforced.analyzeLoop]
    rw [B1_step_const c h1 h2, absQ, if_neg hnn]
    by_cases hbr : (103750:ℚ)/6069 - c < 1/100
    · rw [if_pos hbr]
    · rw [if_neg hbr]
      push_neg at hbr
      refine ih ((c + 103750/6069)/2) (by linarith) (by linarith) ?_
      rw [pow_succ] at h3
      linarith

/-- The equilibrium loop of `B1.Analyze 200 50` converges (breaks) with
`c = 103750/6069 ≈ 17.095` mm. -/
theorem B1_analyzeC_value :
    B1.analyzeC 200 50 = 103750/6069 ∧ B1.analyzeConverged 200 50 = true := by
  have hc0 : B1.c0 200 50 = 63440/6069 := by
    rw [B1_eq]
    simp only [beam.DoublyReinforced.c0, nscp.Beta1, nscp.Beta1Max]
    rw [if_pos (show (28:ℚ) ≤ 28 by norm_num)]
    norm_num
  have hloop : B1.analyzeLoop 200 50 50 (B1.c0 200 50) = (103750/6069, true) := by
    rw [hc0, show (50:ℕ) = 49 + 1 from rfl]
    exact B1_loop_converges 49 _ le_rfl (by norm_num) (by norm_num)
  exact ⟨by rw [beam.DoublyReinforced.analyzeC, hloop],
    by rw [beam.DoublyReinforced.analyzeConverged, hloop]⟩

/-- C1 counterexample: for `B1` with `As = 200`, `Asc = 50` the doubly
reinforced equilibrium solver converges before its 50-iteration cap (its
stopping test is `|Δc| < 0.01` mm), yet the returned forces violate
`|T − (Cc + Cs)| < 0.1` kN by a wide margin: the loop balanced the
compression steel at `−fy` (it lies below the neutral axis), while the final
stress recomputation zeroes `FscStress`, leaving
`T − (Cc + Cs) = −20.75` kN. -/
theorem C1_equilibrium_counterexample :
    B1.analyzeConverged 200 50 = true ∧
    ∃ r : beam.DoublyAnalysisResult, B1.Analyze 200 50 = some r ∧
      ¬ (absQ (r.T - (r.Cc + r.Cs)) < 1/10) := by
  obtain ⟨hC, hConv⟩ := B1_analyzeC_value
  refine ⟨hConv, ?_⟩
  simp only [beam.DoublyReinforced.Analyze]
  rw [hC, B1_eq]
  rw [if_neg (show ¬((300:ℚ) ≤ 0 ∨ (450:ℚ) ≤ 0) by norm_num),
      if_neg (show ¬((28:ℚ) ≤ 0 ∨ (415:ℚ) ≤ 0) by norm_num),
      if_neg (show ¬((200:ℚ) ≤ 0) by norm_num),
      if_neg (show ¬((50:ℚ) < 0) by norm_num)]
  refine ⟨_, rfl, ?_⟩
  simp only [minQ, maxQ, absQ, nscp.EpsilonCU, nscp.Es, nscp.Beta1, nscp.Beta1Max]
  rw [if_pos (show (28:ℚ) ≤ 28 by norm_num)]
  norm_num

/-- A 2D vertex (internal/section `Point`). -/
structure Point where
  X : ℚ
  Y : ℚ

instance : Inhabited Point := ⟨⟨0, 0⟩⟩

/-- A reinforcement layer (internal/section `RebarLayer`); the Go field
`Type` is embedded as `type` (`"tension"`, `"compression"` or `""`). -/
structure RebarLayer where
  Y : ℚ
  Area : ℚ
  Description : String
  type : String

instance : Inhabited RebarLayer := ⟨⟨0, 0, "", ""⟩⟩

/-- A polygonal concrete section (internal/section `Section`). -/
structure Section where
  Name : String
  Description : String
  Fc : ℚ
  Fy : ℚ
  Vertices : List Point
  Reinforcement : List RebarLayer
  EffectiveDepth : ℚ

/-- Geometric/reinforcement properties (internal/section
`SectionProperties`). -/
structure SectionProperties where
  Width : ℚ
  Height : ℚ
  Area : ℚ
  CentroidX : ℚ
  CentroidY : ℚ
  MinX : ℚ
  MaxX : ℚ
  MinY : ℚ
  MaxY : ℚ
  TotalTensionSteel : ℚ
  TotalCompressionSteel : ℚ
  EffectiveDepth : ℚ
  CompressionCover : ℚ

/-- `Section.Validate`: `none` means valid; `some msg` is the Go error (the
layer index interpolated by the Go `Sprintf` is elided). -/
def Section.Validate (s : Section) : Option String :=
  if s.Vertices.length < 3 then some "section must have at least 3 vertices"
  else if s.Fc ≤ 0 then some "f\x27c must be positive"
  else if s.Fy ≤ 0 then some "fy must be positive"
  else if s.Reinforcement.length = 0 then
    some "section must have at least one reinforcement layer"
  else if s.Reinforcement.any (fun layer => decide (layer.Area ≤ 0)) then
    some "reinforcement layer must have positive area"
  else none

/-- The Go edge enumeration `i, (i+1) % n` over the vertex list. -/
def Section.edgePairs (vs : List Point) : List (Point × Point) :=
  vs.zip (vs.drop 1 ++ vs.take 1)

/-- `calculateAreaAndCentroid` (shoelace formula): returns
`(area, cx, cy)`. -/
def Section.calculateAreaAndCentroid (s : Section) : ℚ × ℚ × ℚ :=
  if s.Vertices.length < 3 then (0, 0, 0)
  else
    let acc := (Section.edgePairs s.Vertices).foldl
      (fun (acc : ℚ × ℚ × ℚ) e =>
        let cross := e.1.X * e.2.Y - e.2.X * e.1.Y
        (acc.1 + cross, acc.2.1 + (e.1.X + e.2.X) * cross,
         acc.2.2 + (e.1.Y + e.2.Y) * cross))
      (0, 0, 0)
    let signedArea := acc.1 / 2
    let area := absQ signedArea
    if 0 < area then (area, acc.2.1 / (6 * signedArea), acc.2.2 / (6 * signedArea))
    else (area, 0, 0)

/-- `Section.CalculateProperties` from internal/section. -/
def Section.CalculateProperties (s : Section) : SectionProperties :=
  if s.Vertices.length < 3 then
    { Width := 0, Height := 0, Area := 0, CentroidX := 0, CentroidY := 0,
      MinX := 0, MaxX := 0, MinY := 0, MaxY := 0,
      TotalTensionSteel := 0, TotalCompressionSteel := 0,
      EffectiveDepth := 0, CompressionCover := 0 }
  else
    let v0 := s.Vertices.headI
    let minX := s.Vertices.foldl (fun acc v => minQ acc v.X) v0.X
    let maxX := s.Vertices.foldl (fun acc v => maxQ acc v.X) v0.X
    let minY := s.Vertices.foldl (fun acc v => minQ acc v.Y) v0.Y
    let maxY := s.Vertices.foldl (fun acc v => maxQ acc v.Y) v0.Y
    let ac := s.calculateAreaAndCentroid
    let midHeight := (minY + maxY) / 2
    let isComp : RebarLayer → Bool := fun layer =>
      layer.type == "compression" || (layer.type == "" && decide (midHeight < layer.Y))
    let tensionArea := s.Reinforcement.foldl
      (fun acc layer => if isComp layer then acc else acc + layer.Area) 0
    let tensionMoment := s.Reinforcement.foldl
      (fun acc layer => if isComp layer then acc else acc + layer.Area * layer.Y) 0
    let compressionArea := s.Reinforcement.foldl
      (fun acc layer => if isComp layer then acc + layer.Area else acc) 0
    let compressionMoment := s.Reinforcement.foldl
      (fun acc layer => if isComp layer then acc + layer.Area * layer.Y else acc) 0
    let effD0 := if 0 < tensionArea then maxY - tensionMoment / tensionArea else 0
    let compCover := if 0 < compressionArea then maxY - compressionMoment / compressionArea else 0
    { Width := maxX - minX, Height := maxY - minY,
      Area := ac.1, CentroidX := ac.2.1, CentroidY := ac.2.2,
      MinX := minX, MaxX := maxX, MinY := minY, MaxY := maxY,
      TotalTensionSteel := tensionArea, TotalCompressionSteel := compressionArea,
      EffectiveDepth := if 0 < s.EffectiveDepth then s.EffectiveDepth else effD0,
      CompressionCover := compCover }

/-- `findIntersectionsAtY`: X coordinates where the horizontal line at `y`
crosses a polygon edge. -/
def Section.findIntersectionsAtY (s : Section) (y : ℚ) : List ℚ :=
  (Section.edgePairs s.Vertices).foldr
    (fun e acc =>
      if (e.1.Y ≤ y ∧ y < e.2.Y) ∨ (e.2.Y ≤ y ∧ y < e.1.Y) then
        (e.1.X + (y - e.1.Y) / (e.2.Y - e.1.Y) * (e.2.X - e.1.X)) :: acc
      else acc)
    []

/-- Insertion into a sorted list (ascending), embedding `sort.Float64s`. -/
def insertSortedQ (x : ℚ) : List ℚ → List ℚ
  | [] => [x]
  | y :: ys => if x ≤ y then x :: y :: ys else y :: insertSortedQ x ys

/-- Ascending sort of rationals, embedding `sort.Float64s`. -/
def sortQ : List ℚ → List ℚ
  | [] => []
  | x :: xs => insertSortedQ x (sortQ xs)

/-- The alternate-pair span sum of `widthAtY` (Go: `for i += 2` over the
sorted intersections). -/
def pairSpans : List ℚ → ℚ
  | a :: b :: rest => (b - a) + pairSpans rest
  | _ => 0

/-- `widthAtY` from internal/section. -/
def Section.widthAtY (s : Section) (y : ℚ) : ℚ :=
  let intersections := s.findIntersectionsAtY y
  if intersections.length < 2 then 0
  else pairSpans (sortQ intersections)

/-- `WidthAtDepth` from internal/section. -/
def Section.WidthAtDepth (s : Section) (depthFromTop : ℚ) : ℚ :=
  s.widthAtY (s.CalculateProperties.MaxY - depthFromTop)

/-- The accumulation loop `for i := 0; i < n; i++ { acc += f(i) }`. -/
def trapzGo (f : ℕ → ℚ) : ℕ → ℚ
  | 0 => 0
  | n + 1 => trapzGo f n + f n

/-- `CompressionBlockArea` from internal/section: 100-step composite
trapezoid integration of `widthAtY` from the section top down to depth `a`. -/
def Section.CompressionBlockArea (s : Section) (a : ℚ) : ℚ :=
  let maxY := s.CalculateProperties.MaxY
  let dy := a / 100
  trapzGo (fun i =>
    (s.widthAtY (maxY - (i : ℚ) * dy) + s.widthAtY (maxY - ((i : ℚ) + 1) * dy))
      / 2 * dy) 100

/-- `CompressionBlockCentroid` from internal/section (first moment over
area; `a/2` when the area vanishes). -/
def Section.CompressionBlockCentroid (s : Section) (a : ℚ) : ℚ :=
  let maxY := s.CalculateProperties.MaxY
  let dy := a / 100
  let area := trapzGo (fun i =>
    (s.widthAtY (maxY - (i : ℚ) * dy) + s.widthAtY (maxY - ((i : ℚ) + 1) * dy))
      / 2 * dy) 100
  let moment := trapzGo (fun i =>
    (s.widthAtY (maxY - (i : ℚ) * dy) + s.widthAtY (maxY - ((i : ℚ) + 1) * dy))
      / 2 * dy * (maxY - (maxY - (i : ℚ) * dy + (maxY - ((i : ℚ) + 1) * dy)) / 2)) 100
  if 0 < area then moment / area else a / 2

/-- Per-layer result of `Section.Analyze` (internal/section
`SteelLayerResult`). -/
structure SteelLayerResult where
  Y : ℚ
  Area : ℚ
  Strain : ℚ
  Stress : ℚ
  Force : ℚ
  IsTension : Bool
  HasYielded : Bool
  Description : String

/-- The fields assigned inside the convergence break of the `Section.Analyze`
equilibrium loop. -/
structure BreakData where
  C : ℚ
  A : ℚ
  CompressionArea : ℚ
  CompressionCentroid : ℚ
  Cc : ℚ
  Cs : ℚ
  T : ℚ

/-- The per-iteration steel layer records (the Go loop rebuilds
`result.SteelLayers` each iteration; this is that list at trial depth `c`). -/
def Section.layerResults (s : Section) (props : SectionProperties) (c : ℚ) :
    List SteelLayerResult :=
  s.Reinforcement.map (fun layer =>
    let depthFromTop := props.MaxY - layer.Y
    let strain := nscp.EpsilonCU * (c - depthFromTop) / c
    let stress := if 0 ≤ strain then minQ (strain * nscp.Es) s.Fy
                  else maxQ (strain * nscp.Es) (-s.Fy)
    { Y := layer.Y, Area := layer.Area, Strain := strain, Stress := stress,
      Force := layer.Area * stress / 1000,
      IsTension := decide (strain < 0),
      HasYielded := decide (s.Fy / nscp.Es ≤ absQ strain),
      Description := layer.Description })

/-- Accumulated tension force (kN) of the Go layer loop at trial depth `c`
(the single Go loop is split into its independent accumulators). -/
def Section.totalTension (s : Section) (props : SectionProperties) (c : ℚ) : ℚ :=
  s.Reinforcement.foldl (fun acc layer =>
    let depthFromTop := props.MaxY - layer.Y
    let strain := nscp.EpsilonCU * (c - depthFromTop) / c
    if 0 ≤ strain then acc
    else acc + absQ (layer.Area * maxQ (strain * nscp.Es) (-s.Fy) / 1000)) 0

/-- Accumulated compression-steel force (kN) of the Go layer loop at trial
depth `c` and block depth `a`, with the displaced-concrete correction for
layers inside the compression block. -/
def Section.totalCompression (s : Section) (props : SectionProperties) (c a : ℚ) : ℚ :=
  s.Reinforcement.foldl (fun acc layer =>
    let depthFromTop := props.MaxY - layer.Y
    let strain := nscp.EpsilonCU * (c - depthFromTop) / c
    if 0 ≤ strain then
      let stress := minQ (strain * nscp.Es) s.Fy
      if depthFromTop ≤ a then acc + layer.Area * (stress - 85/100 * s.Fc) / 1000
      else acc + layer.Area * stress / 1000
    else acc) 0

/-- The 100-iteration neutral-axis search of `Section.Analyze`.  Returns the
final iteration's steel layers together with `some` break data when the
`|T − (Cc+Cs)| < 0.1` break was taken and `none` when the cap was exhausted
(in which case the Go result fields `C`, `A`, `Cc`, `Cs`, `T`,
`CompressionArea`, `CompressionCentroid` keep their zero values). -/
def Section.analyzeLoopGo (s : Section) (props : SectionProperties) (beta1 : ℚ) :
    ℕ → ℚ → List SteelLayerResult × Option BreakData
  | 0, _ => ([], none)
  | n + 1, c =>
      let a := beta1 * c
      let compArea := s.CompressionBlockArea a
      let Cc := 85/100 * s.Fc * compArea / 1000
      let tT := s.totalTension props c
      let tC := s.totalCompression props c a
      let imbalance := tT - (Cc + tC)
      if absQ imbalance < 1/10 then
        (s.layerResults props c,
         some { C := c, A := a, CompressionArea := compArea,
                CompressionCentroid := s.CompressionBlockCentroid a,
                Cc := Cc, Cs := tC, T := tT })
      else if n = 0 then (s.layerResults props c, none)
      else
        let adjustment := imbalance / (85/100 * s.Fc * s.WidthAtDepth c / 1000)
        let adjustment2 := maxQ (minQ adjustment 10) (-10)
        Section.analyzeLoopGo s props beta1 n
          (minQ (maxQ (c + adjustment2 * (1/2)) 1) (props.Height - 1))

/-- The analysis loop at its Go call site: 100 iterations from the seed
`c = 0.3·EffectiveDepth`. -/
def Section.analyzeLoopResult (s : Section) :
    List SteelLayerResult × Option BreakData :=
  s.analyzeLoopGo s.CalculateProperties (nscp.Beta1 s.Fc) 100
    (s.CalculateProperties.EffectiveDepth * (3/10))

/-- Whether the `Section.Analyze` loop converged before its 100-iteration cap. -/
def Section.analyzeConverged (s : Section) : Bool :=
  s.analyzeLoopResult.2.isSome

/-- `AnalysisResult` of the polygonal analysis (internal/section). -/
structure SAnalysisResult where
  Properties : SectionProperties
  C : ℚ
  A : ℚ
  Beta1 : ℚ
  CompressionArea : ℚ
  CompressionCentroid : ℚ
  EpsilonT : ℚ
  Cc : ℚ
  Cs : ℚ
  T : ℚ
  SteelLayers : List SteelLayerResult
  Phi : ℚ
  Mn : ℚ
  PhiMn : ℚ
  IsTensionControlled : Bool
  Message : String

/-- `Section.Analyze` from internal/section (returns `none` on the Go error
path). -/
def Section.Analyze (s : Section) : Option SAnalysisResult :=
  if s.Validate.isSome = true then none
  else
    let props := s.CalculateProperties
    let beta1 := nscp.Beta1 s.Fc
    let epsilonY := s.Fy / nscp.Es
    let lr := s.analyzeLoopResult
    let steelLayers := lr.1
    let bd := lr.2
    let C := (bd.map (fun x => x.C)).getD 0
    let A := (bd.map (fun x => x.A)).getD 0
    let compArea := (bd.map (fun x => x.CompressionArea)).getD 0
    let compCentroid := (bd.map (fun x => x.CompressionCentroid)).getD 0
    let Cc := (bd.map (fun x => x.Cc)).getD 0
    let Cs := (bd.map (fun x => x.Cs)).getD 0
    let T := (bd.map (fun x => x.T)).getD 0
    let maxTensile := steelLayers.foldl
      (fun acc lr => if lr.IsTension = true ∧ absQ acc < absQ lr.Strain
                     then lr.Strain else acc) 0
    let epsilonT := absQ maxTensile
    let phi := nscp.Phi epsilonT s.Fy
    let d := props.EffectiveDepth
    let Mn := steelLayers.foldl
      (fun acc lr => if lr.IsTension = true then acc
                     else acc + lr.Force * (d - (props.MaxY - lr.Y)))
      (Cc * (d - compCentroid))
    some { Properties := props, C := C, A := A, Beta1 := beta1,
           CompressionArea := compArea, CompressionCentroid := compCentroid,
           EpsilonT := epsilonT, Cc := Cc, Cs := Cs, T := T,
           SteelLayers := steelLayers,
           Phi := phi, Mn := Mn / 1000, PhiMn := phi * (Mn / 1000),
           IsTensionControlled := decide (epsilonT ≥ 5/1000),
           Message :=
             (if epsilonT ≥ 5/1000 then "Section is tension-controlled"
              else if epsilonT ≥ epsilonY then "Section is in transition zone"
              else "Section is compression-controlled") }

/-- `DesignResult` of the polygonal design (internal/section). -/
structure SDesignResult where
  Mu : ℚ
  Properties : SectionProperties
  AsRequired : ℚ
  AsMin : ℚ
  AsProvided : ℚ
  C : ℚ
  A : ℚ
  Beta1 : ℚ
  Phi : ℚ
  PhiMn : ℚ
  IsTensionControlled : Bool
  IsAdequate : Bool
  Message : String

/-- The Go element write `workingSection.Reinforcement[i].Area = a` (which,
because `workingSection := *s` shares the slice's backing array, also mutates
the caller's section). -/
def setLayerArea : List RebarLayer → ℕ → ℚ → List RebarLayer
  | [], _, _ => []
  | l :: ls, 0, a => { l with Area := a } :: ls
  | l :: ls, i + 1, a => l :: setLayerArea ls i a

/-- The tension-layer selection of `Section.Design`: first layer declared
(or positioned) as tension steel, else the bottom-most layer. -/
def Section.tensionLayerIdx (s : Section) : ℕ :=
  let props := s.CalculateProperties
  match s.Reinforcement.findIdx? (fun layer =>
      layer.type == "tension" ||
        (layer.type == "" && decide (layer.Y < props.Height / 2))) with
  | some i => i
  | none =>
      (s.Reinforcement.foldl
        (fun (acc : ℕ × ℕ × ℚ) layer =>
          if layer.Y < acc.2.2 then (acc.2.1, acc.2.1 + 1, layer.Y)
          else (acc.1, acc.2.1 + 1, acc.2.2))
        (0, 0, (s.Reinforcement.headI).Y)).1

/-- The 50-iteration design-by-search loop of `Section.Design`: scale the
tension-layer area until `φMn ≥ 0.999·Mu`.  Returns `none` when the inner
analysis errors (the Go `return nil, err`); otherwise the final reinforcement
list and `some (As, analysis)` when the adequacy break was taken. -/
def Section.designLoopGo (s : Section) (mu : ℚ) (idx : ℕ) :
    ℕ → List RebarLayer → ℚ →
    Option (List RebarLayer × Option (ℚ × SAnalysisResult))
  | 0, ls, _ => some (ls, none)
  | n + 1, ls, As =>
      let ls' := setLayerArea ls idx As
      match Section.Analyze { s with Reinforcement := ls' } with
      | none => none
      | some analysis =>
        if analysis.PhiMn ≥ mu * (999/1000) then some (ls', some (As, analysis))
        else
          let props := s.CalculateProperties
          Section.designLoopGo s mu idx n ls'
            (minQ (As * (mu / analysis.PhiMn))
              (props.Width * props.EffectiveDepth * nscp.RhoMax s.Fc s.Fy * 3))

/-- `Section.Design` from internal/section.  The second component of the
returned pair is the post-call state of the *caller's* section: the Go
`workingSection := *s` copies the struct but shares the reinforcement
slice's backing array, so the loop's area writes reach the caller.  (On the
error path the embedding returns `none` and does not model the partial
mutation already performed.) -/
def Section.Design (s : Section) (mu : ℚ) : Option (SDesignResult × Section) :=
  if s.Validate.isSome = true then none
  else
    let props := s.CalculateProperties
    let beta1 := nscp.Beta1 s.Fc
    let d := props.EffectiveDepth
    let asMin := nscp.RhoMin s.Fc s.Fy * props.Width * d
    let jd := 9/10 * d
    let AsEstimate := mu * 1000000 / (nscp.PhiFlexure * s.Fy * jd)
    let idx := s.tensionLayerIdx
    match s.designLoopGo mu idx 50 s.Reinforcement AsEstimate with
    | none => none
    | some (finalList, outcome) =>
      let asReq0 := (outcome.map (fun x => x.1)).getD 0
      let asReq := if asReq0 < asMin then asMin else asReq0
      let isAdequate := outcome.isSome
      some ({ Mu := mu, Properties := props,
              AsRequired := asReq, AsMin := asMin, AsProvided := asReq,
              C := (outcome.map (fun x => x.2.C)).getD 0,
              A := (outcome.map (fun x => x.2.A)).getD 0,
              Beta1 := beta1,
              Phi := (outcome.map (fun x => x.2.Phi)).getD 0,
              PhiMn := (outcome.map (fun x => x.2.PhiMn)).getD 0,
              IsTensionControlled :=
                (outcome.map (fun x => x.2.IsTensionControlled)).getD false,
              IsAdequate := isAdequate,
              Message :=
                if isAdequate then
                  if (outcome.map (fun x => x.2.IsTensionControlled)).getD false then
                    "Design OK - Section is tension-controlled"
                  else "Design OK - Section is in transition zone"
                else "Design inadequate - Section cannot resist the required moment" },
            { s with Reinforcement := finalList })

theorem trapzGo_congr (f g : ℕ → ℚ) : ∀ n : ℕ, (∀ i, i < n → f i = g i) →
    trapzGo f n = trapzGo g n := by
  intro n
  induction n with
  | zero => intro _; rfl
  | succ n ih =>
    intro h
    simp only [trapzGo]
    rw [ih (fun i hi => h i (Nat.lt_succ_of_lt hi)), h n (Nat.lt_succ_self n)]

theorem trapzGo_shift (f : ℕ → ℚ) : ∀ n : ℕ,
    trapzGo f (n + 1) = f 0 + trapzGo (fun i => f (i + 1)) n := by
  intro n
  induction n with
  | zero => simp only [trapzGo]; ring
  | succ n ih =>
    have step : trapzGo f (n + 1 + 1) = trapzGo f (n + 1) + f (n + 1) := rfl
    rw [step, ih]
    simp only [trapzGo]
    ring

theorem trapzGo_const (c : ℚ) : ∀ n : ℕ, trapzGo (fun _ => c) n = n * c := by
  intro n
  induction n with
  | zero => simp [trapzGo]
  | succ n ih =>
    simp only [trapzGo, ih]
    push_cast
    ring

theorem trapzGo_linear (p q : ℚ) : ∀ n : ℕ,
    trapzGo (fun i => p + q * i) n = n * p + q * (n * (n - 1) / 2) := by
  intro n
  induction n with
  | zero => simp [trapzGo]
  | succ n ih =>
    simp only [trapzGo, ih]
    push_cast
    ring

theorem trapzGo_split (f : ℕ → ℚ) (m : ℕ) : ∀ n : ℕ,
    trapzGo f (m + n) = trapzGo f m + trapzGo (fun i => f (m + i)) n := by
  intro n
  induction n with
  | zero => simp [trapzGo]
  | succ n ih =>
    have step : trapzGo f (m + (n + 1)) = trapzGo f (m + n) + f (m + n) := rfl
    rw [step, ih]
    simp only [trapzGo]
    ring

/-- The canonical axis-aligned `b×h` rectangle polygon section with origin at
`(0,0)`, counter-clockwise vertex order (the JSON convention of the source). -/
def rectSection (b h : ℚ) (layers : List RebarLayer) (fc fy : ℚ) : Section :=
  { Name := "", Description := "", Fc := fc, Fy := fy,
    Vertices := [⟨0, 0⟩, ⟨b, 0⟩, ⟨b, h⟩, ⟨0, h⟩],
    Reinforcement := layers, EffectiveDepth := 0 }

theorem rect_edgePairs (b h : ℚ) (L : List RebarLayer) (fc fy : ℚ) :
    Section.edgePairs (rectSection b h L fc fy).Vertices =
      [(⟨0, 0⟩, ⟨b, 0⟩), (⟨b, 0⟩, ⟨b, h⟩), (⟨b, h⟩, ⟨0, h⟩), (⟨0, h⟩, ⟨0, 0⟩)] := rfl

theorem rect_widthAtY_mid (b h y : ℚ) (L : List RebarLayer) (fc fy : ℚ)
    (hb : 0 < b) (h0 : 0 ≤ y) (hy : y < h) :
    (rectSection b h L fc fy).widthAtY y = b := by
  have he1 : ¬ (((0:ℚ) ≤ y ∧ y < 0) ∨ ((0:ℚ) ≤ y ∧ y < 0)) := by
    push_neg
    exact ⟨fun _ => h0, fun _ => h0⟩
  have he2 : ((0:ℚ) ≤ y ∧ y < h) ∨ (h ≤ y ∧ y < 0) := Or.inl ⟨h0, hy⟩
  have he3 : ¬ ((h ≤ y ∧ y < h) ∨ (h ≤ y ∧ y < h)) := by
    push_neg
    exact ⟨fun hh => by linarith, fun hh => by linarith⟩
  have he4 : (h ≤ y ∧ y < 0) ∨ ((0:ℚ) ≤ y ∧ y < h) := Or.inr ⟨h0, hy⟩
  have hints : (rectSection b h L fc fy).findIntersectionsAtY y = [b, 0] := by
    unfold Section.findIntersectionsAtY
    rw [rect_edgePairs]
    simp only [List.foldr]
    rw [if_neg he1, if_pos he2, if_neg he3, if_pos he4]
    simp only [List.cons.injEq]
    refine ⟨by ring, by ring, trivial⟩
  unfold Section.widthAtY
  rw [hints]
  rw [if_neg (by norm_num)]
  simp only [sortQ, insertSortedQ]
  rw [if_neg (not_le.mpr hb)]
  simp only [pairSpans]
  ring

theorem rect_widthAtY_top (b h : ℚ) (L : List RebarLayer) (fc fy : ℚ)
    (hh : 0 < h) :
    (rectSection b h L fc fy).widthAtY h = 0 := by
  have he1 : ¬ (((0:ℚ) ≤ h ∧ h < 0) ∨ ((0:ℚ) ≤ h ∧ h < 0)) := by
    push_neg
    exact ⟨fun _ => by linarith, fun _ => by linarith⟩
  have he2 : ¬ (((0:ℚ) ≤ h ∧ h < h) ∨ (h ≤ h ∧ h < 0)) := by
    push_neg
    exact ⟨fun _ => le_rfl, fun _ => by linarith⟩
  have he3 : ¬ ((h ≤ h ∧ h < h) ∨ (h ≤ h ∧ h < h)) := by
    push_neg
    exact ⟨fun _ => le_rfl, fun _ => le_rfl⟩
  have he4 : ¬ ((h ≤ h ∧ h < 0) ∨ ((0:ℚ) ≤ h ∧ h < h)) := by
    push_neg
    exact ⟨fun _ => by linarith, fun _ => le_rfl⟩
  have hints : (rectSection b h L fc fy).findIntersectionsAtY h = [] := by
    unfold Section.findIntersectionsAtY
    rw [rect_edgePairs]
    simp only [List.foldr]
    rw [if_neg he1, if_neg he2, if_neg he3, if_neg he4]
  unfold Section.widthAtY
  rw [hints]
  rfl

theorem maxQ_self (a : ℚ) : maxQ a a = a := by rw [maxQ, if_pos le_rfl]

theorem maxQ_le (a b : ℚ) (h : a ≤ b) : maxQ a b = b := by rw [maxQ, if_pos h]

theorem minQ_self (a : ℚ) : minQ a a = a := by rw [minQ, if_pos le_rfl]

theorem minQ_le (a b : ℚ) (h : a ≤ b) : minQ a b = a := by rw [minQ, if_pos h]

theorem rect_maxY (b h : ℚ) (L : List RebarLayer) (fc fy : ℚ)
    (hh : 0 ≤ h) :
    (rectSection b h L fc fy).CalculateProperties.MaxY = h := by
  unfold rectSection Section.CalculateProperties
  rw [if_neg (by simp)]
  simp only [List.foldl, List.headI, maxQ_self]
  rw [maxQ_le 0 h hh, maxQ_self]

theorem rect_minY (b h : ℚ) (L : List RebarLayer) (fc fy : ℚ)
    (hh : 0 ≤ h) :
    (rectSection b h L fc fy).CalculateProperties.MinY = 0 := by
  unfold rectSection Section.CalculateProperties
  rw [if_neg (by simp)]
  simp only [List.foldl, List.headI, minQ_self]
  rw [minQ_le 0 h hh, minQ_le 0 h hh]

theorem rect_height (b h : ℚ) (L : List RebarLayer) (fc fy : ℚ)
    (hh : 0 ≤ h) :
    (rectSection b h L fc fy).CalculateProperties.Height = h := by
  unfold rectSection Section.CalculateProperties
  rw [if_neg (by simp)]
  simp only [List.foldl, List.headI, maxQ_self, minQ_self]
  rw [maxQ_le 0 h hh, maxQ_self, minQ_le 0 h hh, minQ_le 0 h hh]
  ring

/-- For the canonical `b×h` rectangle the 100-step trapezoid integration of
`widthAtY` from the top down to `a` gives exactly `0.995·b·a`: the sample at
the very top has width 0 (the strict edge test excludes the top edge), so the
first strip contributes `b·dy/2` instead of `b·dy`. -/
theorem rect_compressionBlockArea (b h a : ℚ) (L : List RebarLayer) (fc fy : ℚ)
    (hb : 0 < b) (hh : 0 < h) (ha0 : 0 ≤ a) (hah : a ≤ h) :
    (rectSection b h L fc fy).CompressionBlockArea a = 199/200 * (b * a) := by
  unfold Section.CompressionBlockArea
  rw [rect_maxY b h L fc fy (le_of_lt hh)]
  rcases eq_or_lt_of_le ha0 with hz | hpos
  · rw [trapzGo_congr _ (fun _ => 0) 100 (fun i _ => by rw [← hz]; ring)]
    rw [trapzGo_const]
    rw [← hz]
    ring
  · have hdy : 0 < a / 100 := by positivity
    rw [trapzGo_congr _
      (fun i => if i = 0 then (0 + b) / 2 * (a / 100) else b * (a / 100)) 100 ?_]
    · rw [show (100:ℕ) = 99 + 1 from rfl, trapzGo_shift]
      rw [trapzGo_congr _ (fun _ => b * (a / 100)) 99
        (fun i _ => by dsimp only; rw [if_neg (Nat.succ_ne_zero i)])]
      rw [trapzGo_const]
      rw [if_pos rfl]
      push_cast
      ring
    · intro i hi
      match i with
      | 0 =>
        dsimp only
        rw [if_pos rfl]
        rw [show h - ((0:ℕ):ℚ) * (a/100) = h from by push_cast; ring,
            show h - (((0:ℕ):ℚ) + 1) * (a/100) = h - a/100 from by push_cast; ring]
        rw [rect_widthAtY_top b h L fc fy hh,
            rect_widthAtY_mid b h (h - a/100) L fc fy hb (by linarith) (by linarith)]
      | j + 1 =>
        dsimp only
        rw [if_neg (Nat.succ_ne_zero j)]
        have hle : ((j:ℚ) + 1) ≤ 99 := by
          have : j + 1 ≤ 99 := by omega
          exact_mod_cast this
        have hge : (0:ℚ) ≤ (j:ℚ) := Nat.cast_nonneg j
        have hy1lo : 0 ≤ h - ((j + 1 : ℕ):ℚ) * (a/100) := by
          push_cast
          nlinarith
        have hy1hi : h - ((j + 1 : ℕ):ℚ) * (a/100) < h := by
          push_cast
          nlinarith
        have hy2lo : 0 ≤ h - (((j + 1 : ℕ):ℚ) + 1) * (a/100) := by
          push_cast
          nlinarith
        have hy2hi : h - (((j + 1 : ℕ):ℚ) + 1) * (a/100) < h := by
          push_cast
          nlinarith
        rw [rect_widthAtY_mid b h _ L fc fy hb hy1lo hy1hi,
            rect_widthAtY_mid b h _ L fc fy hb hy2lo hy2hi]
        ring

/-- C5 (amended): for the canonical axis-aligned `b×h` rectangle section and
any `0 ≤ a ≤ h`, `CompressionBlockArea a` equals `0.995·b·a` exactly — a
fixed 0.5 % relative shortfall from the true block area `b·a`, not the 0.1 %
of the original claim. -/
theorem C5_rect_block_area_exact (b h a fc fy : ℚ) (L : List RebarLayer)
    (hb : 0 < b) (hh : 0 < h) (ha0 : 0 ≤ a) (hah : a ≤ h) :
    (rectSection b h L fc fy).CompressionBlockArea a = 199/200 * (b * a) :=
  rect_compressionBlockArea b h a L fc fy hb hh ha0 hah

/-- Witness for the amended C5 at `b = 300`, `h = 500`, `a = 100`. -/
theorem C5_rect_block_area_exact_witness :
    (rectSection 300 500 [] 28 415).CompressionBlockArea 100 =
      199/200 * (300 * 100) :=
  C5_rect_block_area_exact 300 500 100 28 415 []
    (by norm_num) (by norm_num) (by norm_num) (by norm_num)

/-- C5 counterexample: at `b = 300`, `h = 500`, `a = 100` the integration
error is 150 mm² = 0.5 % of `b·a = 30000`, violating the claimed 0.1 % bound. -/
theorem C5_block_area_counterexample :
    ¬ (absQ ((rectSection 300 500 [] 28 415).CompressionBlockArea 100 - 300 * 100)
        ≤ 1/1000 * (300 * 100)) := by
  rw [rect_compressionBlockArea 300 500 100 [] 28 415
    (by norm_num) (by norm_num) (by norm_num) (by norm_num)]
  rw [absQ]
  norm_num

/-- Whenever the `Section.Analyze` loop takes its convergence break, the
break data satisfies the break test: `|T − (Cc + Cs)| < 0.1` kN. -/
theorem analyzeLoopGo_break_inv (s : Section) (props : SectionProperties)
    (beta1 : ℚ) : ∀ (fuel : ℕ) (c : ℚ) (ls : List SteelLayerResult)
    (bd : BreakData), s.analyzeLoopGo props beta1 fuel c = (ls, some bd) →
    absQ (bd.T - (bd.Cc + bd.Cs)) < 1/10 := by
  intro fuel
  induction fuel with
  | zero =>
    intro c ls bd h
    simp only [Section.analyzeLoopGo, Prod.mk.injEq] at h
    exact absurd h.2 (by simp)
  | succ n ih =>
    intro c ls bd h
    simp only [Section.analyzeLoopGo] at h
    split at h
    · rename_i hbreak
      rw [Prod.mk.injEq, Option.some.injEq] at h
      rw [← h.2]
      exact hbreak
    · split at h
      · rw [Prod.mk.injEq] at h
        exact absurd h.2 (by simp)
      · exact ih _ _ _ h

/-- C1 (amended): for every polygonal section whose `Section.Analyze`
equilibrium loop converges before its 100-iteration cap, the returned record
satisfies the stopping tolerance `|T − (Cc + Cs)| < 0.1` kN.  (The
doubly-reinforced solver does not satisfy this bound — its stopping test is
`|Δc| < 0.01` mm, see the counterexample.) -/
theorem C1_equilibrium_polygonal (s : Section) (r : SAnalysisResult)
    (hconv : s.analyzeConverged = true) (hr : s.Analyze = some r) :
    absQ (r.T - (r.Cc + r.Cs)) < 1/10 := by
  unfold Section.Analyze at hr
  split at hr
  · exact absurd hr (by simp)
  · rw [Option.some.injEq] at hr
    unfold Section.analyzeConverged at hconv
    rw [Option.isSome_iff_exists] at hconv
    obtain ⟨bd, hbd⟩ := hconv
    have hinv := analyzeLoopGo_break_inv s s.CalculateProperties
      (nscp.Beta1 s.Fc) 100 (s.CalculateProperties.EffectiveDepth * (3/10))
      s.analyzeLoopResult.1 bd
      (by
        have : s.analyzeLoopResult =
            (s.analyzeLoopResult.1, s.analyzeLoopResult.2) := rfl
        rw [hbd] at this
        exact this)
    rw [← hr]
    simp only [hbd, Option.map_some, Option.getD_some]
    exact hinv

theorem rect_Fc (b h : ℚ) (L : List RebarLayer) (fc fy : ℚ) :
    (rectSection b h L fc fy).Fc = fc := rfl

theorem rect_Fy (b h : ℚ) (L : List RebarLayer) (fc fy : ℚ) :
    (rectSection b h L fc fy).Fy = fy := rfl

theorem beta1_28 : nscp.Beta1 28 = 85/100 := by
  rw [nscp.Beta1, if_pos (by norm_num : (28:ℚ) ≤ 28)]
  rfl

/-- Effective depth of the canonical rectangle with a single bottom layer of
positive area: `h − y0` (no override, layer classified as tension). -/
theorem rect_ED_single (b h y0 A : ℚ) (desc : String) (fc fy : ℚ)
    (hh : 0 ≤ h) (hA : 0 < A) (hy : ¬ ((0 + h) / 2 < y0)) :
    (rectSection b h [⟨y0, A, desc, ""⟩] fc fy).CalculateProperties.EffectiveDepth
      = h - y0 := by
  unfold rectSection Section.CalculateProperties
  rw [if_neg (by simp)]
  simp only [List.foldl, List.headI, maxQ_self, minQ_self]
  rw [maxQ_le 0 h hh, maxQ_self, minQ_le 0 h hh, minQ_le 0 h hh]
  simp only [decide_eq_false hy, Bool.and_false, Bool.or_false,
    show (("" : String) == "compression") = false from rfl, Bool.false_eq_true,
    if_false]
  rw [if_neg (lt_irrefl (0:ℚ))]
  rw [if_pos (show (0:ℚ) < 0 + A from by linarith)]
  rw [zero_add, zero_add, mul_comm A y0, mul_div_assoc, div_self (ne_of_gt hA),
    mul_one]

/-- The tension layer area that exactly balances the concrete compression at
the seed depth `c = 0.3·d` of the converging-analysis witness section. -/
def WAs : ℚ := 54347895/41500

/-- C1-witness section: a `200×500` rectangle with a single tension layer at
`y = 50` whose area makes the equilibrium loop converge at its first
iteration. -/
def WSec : Section := rectSection 200 500 [⟨50, WAs, "", ""⟩] 28 415

theorem WSec_ED : WSec.CalculateProperties.EffectiveDepth = 450 := by
  have h := rect_ED_single 200 500 50 WAs "" 28 415 (by norm_num)
    (by rw [WAs]; norm_num) (by norm_num)
  rw [WSec, h]
  norm_num

theorem WSec_maxY : WSec.CalculateProperties.MaxY = 500 := by
  rw [WSec, rect_maxY 200 500 _ 28 415 (by norm_num)]

/-- Tension force at the seed depth: the layer is far past yield, so
`T = As·fy/1000`. -/
theorem WSec_tT :
    WSec.totalTension WSec.CalculateProperties (450 * (3/10)) = 10869579/20000 := by
  unfold Section.totalTension
  rw [show WSec.Reinforcement = [⟨50, WAs, "", ""⟩] from rfl]
  simp only [List.foldl]
  rw [WSec_maxY]
  rw [show WSec.Fy = 415 from rfl]
  rw [if_neg (show ¬ ((0:ℚ) ≤ nscp.EpsilonCU * (450 * (3/10) - (500 - 50)) / (450 * (3/10))) from by
    rw [nscp.EpsilonCU]
    norm_num)]
  rw [maxQ, if_pos (by rw [nscp.EpsilonCU, nscp.Es]; norm_num)]
  rw [absQ, if_pos (by rw [WAs]; norm_num)]
  rw [WAs]
  norm_num

theorem WSec_tC :
    WSec.totalCompression WSec.CalculateProperties (450 * (3/10))
      (nscp.Beta1 WSec.Fc * (450 * (3/10))) = 0 := by
  unfold Section.totalCompression
  rw [show WSec.Reinforcement = [⟨50, WAs, "", ""⟩] from rfl]
  simp only [List.foldl]
  rw [WSec_maxY]
  rw [if_neg (show ¬ ((0:ℚ) ≤ nscp.EpsilonCU * (450 * (3/10) - (500 - 50)) / (450 * (3/10))) from by
    rw [nscp.EpsilonCU]
    norm_num)]

theorem WSec_compArea :
    WSec.CompressionBlockArea (nscp.Beta1 WSec.Fc * (450 * (3/10))) =
      199/200 * (200 * (85/100 * (450 * (3/10)))) := by
  rw [show nscp.Beta1 WSec.Fc = 85/100 from by rw [show WSec.Fc = 28 from rfl, beta1_28]]
  rw [WSec]
  exact rect_compressionBlockArea 200 500 _ _ 28 415
    (by norm_num) (by norm_num) (by norm_num) (by norm_num)

/-- One-step break equation of the analysis loop: when the force imbalance at
the current trial depth is inside the tolerance, the loop returns the break
data of that iteration. -/
theorem analyzeLoopGo_break_eq (s : Section) (props : SectionProperties)
    (beta1 : ℚ) (n : ℕ) (c : ℚ)
    (h : absQ (s.totalTension props c -
      (85/100 * s.Fc * s.CompressionBlockArea (beta1 * c) / 1000 +
       s.totalCompression props c (beta1 * c))) < 1/10) :
    s.analyzeLoopGo props beta1 (n + 1) c =
      (s.layerResults props c,
       some { C := c, A := beta1 * c,
              CompressionArea := s.CompressionBlockArea (beta1 * c),
              CompressionCentroid := s.CompressionBlockCentroid (beta1 * c),
              Cc := 85/100 * s.Fc * s.CompressionBlockArea (beta1 * c) / 1000,
              Cs := s.totalCompression props c (beta1 * c),
              T := s.totalTension props c }) := by
  simp only [Section.analyzeLoopGo]
  rw [if_pos h]

/-- The `Section.Analyze` loop on `WSec` breaks at its first iteration: the
force imbalance at the seed depth is exactly zero. -/
theorem WSec_converged : WSec.analyzeConverged = true := by
  have h0 : WSec.totalTension WSec.CalculateProperties (450 * (3/10)) -
      (85/100 * WSec.Fc * WSec.CompressionBlockArea
        (nscp.Beta1 WSec.Fc * (450 * (3/10))) / 1000 +
       WSec.totalCompression WSec.CalculateProperties (450 * (3/10))
         (nscp.Beta1 WSec.Fc * (450 * (3/10)))) = 0 := by
    rw [WSec_tT, WSec_tC, WSec_compArea, show WSec.Fc = 28 from rfl]
    norm_num
  have hbal : absQ (WSec.totalTension WSec.CalculateProperties (450 * (3/10)) -
      (85/100 * WSec.Fc * WSec.CompressionBlockArea
        (nscp.Beta1 WSec.Fc * (450 * (3/10))) / 1000 +
       WSec.totalCompression WSec.CalculateProperties (450 * (3/10))
         (nscp.Beta1 WSec.Fc * (450 * (3/10))))) < 1/10 := by
    rw [h0, absQ, if_neg (lt_irrefl (0:ℚ))]
    norm_num
  unfold Section.analyzeConverged Section.analyzeLoopResult
  rw [WSec_ED]
  rw [show (100:ℕ) = 99 + 1 from rfl]
  rw [analyzeLoopGo_break_eq WSec WSec.CalculateProperties
    (nscp.Beta1 WSec.Fc) 99 (450 * (3/10)) hbal]
  rfl

/-- Witness for the amended C1: `WSec.Analyze` converges and its returned
forces satisfy the 0.1 kN equilibrium tolerance. -/
theorem C1_equilibrium_polygonal_witness :
    ∃ r : SAnalysisResult, WSec.Analyze = some r ∧
      absQ (r.T - (r.Cc + r.Cs)) < 1/10 := by
  have hval : WSec.Validate = none := by
    unfold WSec rectSection Section.Validate
    rw [if_neg (by simp)]
    rw [if_neg (by norm_num), if_neg (by norm_num), if_neg (by simp)]
    rw [if_neg (by
      simp only [List.any, Bool.or_false, decide_eq_true_eq, WAs]
      norm_num)]
  have hr0 : ∃ r, WSec.Analyze = some r := by
    unfold Section.Analyze
    rw [hval]
    exact ⟨_, rfl⟩
  obtain ⟨r, hr⟩ := hr0
  exact ⟨r, hr, C1_equilibrium_polygonal WSec r WSec_converged hr⟩

theorem minQ_le_right (a b : ℚ) : minQ a b ≤ b := by
  rw [minQ]
  split
  · assumption
  · exact le_rfl

theorem le_minQ_both (c a b : ℚ) (h1 : c ≤ a) (h2 : c ≤ b) : c ≤ minQ a b := by
  rw [minQ]
  split
  · exact h1
  · exact h2

theorem maxQ_le_both (a b t : ℚ) (h1 : a ≤ t) (h2 : b ≤ t) : maxQ a b ≤ t := by
  rw [maxQ]
  split
  · exact h2
  · exact h1

/-- When the force imbalance stays outside the tolerance on the whole clamp
interval `[1, Height−1]`, the analysis loop exhausts any fuel without ever
producing break data. -/
theorem analyzeLoopGo_none (s : Section) (props : SectionProperties)
    (beta1 : ℚ) (hH : (1:ℚ) ≤ props.Height - 1)
    (H : ∀ c, 1 ≤ c → c ≤ props.Height - 1 →
      ¬ absQ (s.totalTension props c -
        (85/100 * s.Fc * s.CompressionBlockArea (beta1 * c) / 1000 +
         s.totalCompression props c (beta1 * c))) < 1/10) :
    ∀ (fuel : ℕ) (c : ℚ), 1 ≤ c → c ≤ props.Height - 1 →
      (s.analyzeLoopGo props beta1 fuel c).2 = none := by
  intro fuel
  induction fuel with
  | zero => intro c _ _; rfl
  | succ n ih =>
    intro c hc1 hc2
    simp only [Section.analyzeLoopGo]
    rw [if_neg (H c hc1 hc2)]
    split
    · rfl
    · exact ih _ (le_minQ_both _ _ _ (le_maxQ_right _ 1) hH) (minQ_le_right _ _)

/-- C3-counterexample section: a valid `10×10` polygon with a single enormous
(10⁶ mm²) tension layer, so that steel tension exceeds the attainable concrete
compression at every admissible trial depth and the loop can never balance. -/
def tinySec : Section := rectSection 10 10 [⟨0, 1000000, "", ""⟩] 28 415

theorem tiny_maxY : tinySec.CalculateProperties.MaxY = 10 := by
  rw [tinySec, rect_maxY 10 10 _ 28 415 (by norm_num)]

theorem tiny_height : tinySec.CalculateProperties.Height = 10 := by
  rw [tinySec, rect_height 10 10 _ 28 415 (by norm_num)]

theorem tiny_ED : tinySec.CalculateProperties.EffectiveDepth = 10 := by
  have h := rect_ED_single 10 10 0 1000000 "" 28 415 (by norm_num)
    (by norm_num) (by norm_num)
  rw [tinySec, h]
  norm_num

/-- On the whole clamp interval the huge tension layer keeps the force
imbalance of `tinySec` far outside the stopping tolerance. -/
theorem tiny_imbalance (c : ℚ) (h1 : 1 ≤ c) (h9 : c ≤ 9) :
    ¬ absQ (tinySec.totalTension tinySec.CalculateProperties c -
      (85/100 * tinySec.Fc *
        tinySec.CompressionBlockArea (nscp.Beta1 tinySec.Fc * c) / 1000 +
       tinySec.totalCompression tinySec.CalculateProperties c
         (nscp.Beta1 tinySec.Fc * c))) < 1/10 := by
  have hc0 : (0:ℚ) < c := by linarith
  have hstrain : nscp.EpsilonCU * (c - (10 - 0)) / c < 0 := by
    rw [nscp.EpsilonCU]
    apply div_neg_of_neg_of_pos _ hc0
    nlinarith
  have htT : tinySec.totalTension tinySec.CalculateProperties c =
      absQ (1000000 * maxQ (nscp.EpsilonCU * (c - (10 - 0)) / c * nscp.Es)
        (-415) / 1000) := by
    unfold Section.totalTension
    rw [show tinySec.Reinforcement = [⟨0, 1000000, "", ""⟩] from rfl]
    simp only [List.foldl]
    rw [tiny_maxY]
    rw [show tinySec.Fy = 415 from rfl]
    rw [if_neg (not_le.mpr hstrain)]
    rw [zero_add]
  have htT2 : tinySec.totalTension tinySec.CalculateProperties c =
      absQ (1000 * maxQ (nscp.EpsilonCU * (c - (10 - 0)) / c * nscp.Es)
        (-415)) := by
    rw [htT]
    congr 1
    ring
  have hstEs : nscp.EpsilonCU * (c - (10 - 0)) / c * nscp.Es ≤ -(200/3) := by
    rw [nscp.EpsilonCU, nscp.Es]
    rw [div_mul_eq_mul_div, div_le_iff₀ hc0]
    nlinarith
  have hmax : maxQ (nscp.EpsilonCU * (c - (10 - 0)) / c * nscp.Es) (-415)
      ≤ -(200/3) :=
    maxQ_le_both _ _ _ hstEs (by norm_num)
  have hlt : 1000 * maxQ (nscp.EpsilonCU * (c - (10 - 0)) / c * nscp.Es)
      (-415) < 0 := by nlinarith [hmax]
  have htT_ge : 200000/3 ≤ tinySec.totalTension tinySec.CalculateProperties c := by
    rw [htT2, absQ, if_pos hlt]
    nlinarith [hmax]
  have htC : tinySec.totalCompression tinySec.CalculateProperties c
      (nscp.Beta1 tinySec.Fc * c) = 0 := by
    unfold Section.totalCompression
    rw [show tinySec.Reinforcement = [⟨0, 1000000, "", ""⟩] from rfl]
    simp only [List.foldl]
    rw [tiny_maxY]
    rw [if_neg (not_le.mpr hstrain)]
  have hbeta : nscp.Beta1 tinySec.Fc = 85/100 := by
    rw [show tinySec.Fc = 28 from rfl, beta1_28]
  have hCBA : tinySec.CompressionBlockArea (nscp.Beta1 tinySec.Fc * c) =
      199/200 * (10 * (85/100 * c)) := by
    rw [hbeta, tinySec]
    exact rect_compressionBlockArea 10 10 _ _ 28 415 (by norm_num) (by norm_num)
      (by linarith) (by linarith)
  rw [htC, hCBA, show tinySec.Fc = 28 from rfl]
  have himb : (0:ℚ) < tinySec.totalTension tinySec.CalculateProperties c -
      (85/100 * 28 * (199/200 * (10 * (85/100 * c))) / 1000 + 0) := by
    nlinarith [htT_ge]
  rw [absQ, if_neg (not_lt.mpr (le_of_lt himb))]
  push_neg
  nlinarith [htT_ge]

theorem tiny_loop_none : tinySec.analyzeLoopResult.2 = none := by
  unfold Section.analyzeLoopResult
  rw [tiny_ED]
  apply analyzeLoopGo_none
  · rw [tiny_height]; norm_num
  · intro c hc1 hc2
    rw [tiny_height] at hc2
    exact tiny_imbalance c hc1 (by linarith)
  · norm_num
  · rw [tiny_height]; norm_num

theorem tiny_validate : tinySec.Validate = none := by
  unfold tinySec rectSection Section.Validate
  rw [if_neg (by simp)]
  rw [if_neg (by norm_num), if_neg (by norm_num), if_neg (by simp)]
  rw [if_neg (by
    simp only [List.any, Bool.or_false, decide_eq_true_eq]
    norm_num)]

/-- Counterexample to C3 on the polygonal solver: on this valid section the
equilibrium loop exhausts its 100-iteration cap, and `Section.Analyze` then
returns a record whose `C`, `A`, `Cc`, `Cs`, `T` fields are the zero
defaults — not the values of the final iteration. -/
theorem C3_polygonal_zero_fields_counterexample :
    tinySec.analyzeConverged = false ∧
    ∃ r : SAnalysisResult, tinySec.Analyze = some r ∧
      r.C = 0 ∧ r.A = 0 ∧ r.Cc = 0 ∧ r.Cs = 0 ∧ r.T = 0 := by
  have hnone := tiny_loop_none
  constructor
  · unfold Section.analyzeConverged
    rw [hnone]
    rfl
  · unfold Section.Analyze
    rw [tiny_validate]
    rw [if_neg (by simp)]
    refine ⟨_, rfl, ?_, ?_, ?_, ?_, ?_⟩ <;> (simp only [hnone]; rfl)
